import Mathlib

/-!
# Verification of the GUID string parser

Shallow embedding of the `guid` crate's parser (`crates/guid-parser/src/lib.rs`
and `src/lib.rs`).  Input bytes are modelled as `Nat` (values of Rust `u8`),
strings as `List Nat`.  The chomp combinator framework's simple parsers are
modelled by explicit state passing: a parser takes the input list and returns
either the parsed value with the remaining input, or the remaining input at
the failure point together with the error (mirroring chomp's `parse_only`,
which returns the remaining slice alongside the error).
-/

namespace GuidSpec

/-- chomp's `Error<u8>` for simple parsers: `expected t` is produced by
`string`/`token` (carrying the expected byte), `unexpected` by `satisfy`.
The error value itself carries no position information. -/
inductive PError where
  | expected : Nat → PError
  | unexpected : PError
deriving DecidableEq, Repr

/-- A chomp-style parser over a list of input bytes. -/
abbrev P (α : Type) : Type := List Nat → Except (List Nat × PError) (α × List Nat)

/-- Monadic return of the parser embedding (chomp's `ret`). -/
def pret {α : Type} (a : α) : P α := fun i => .ok (a, i)

/-- Monadic bind of the parser embedding (chomp's `parse!` sequencing). -/
def pbind {α β : Type} (p : P α) (f : α → P β) : P β := fun i =>
  match p i with
  | .error e => .error e
  | .ok (a, i2) => f a i2

/-- chomp's `satisfy`: consume one byte if it satisfies the predicate,
otherwise fail with `unexpected` without consuming (at end of input it also
fails with `unexpected`, since `parse_only` marks the input complete). -/
def satisfy (f : Nat → Bool) : P Nat := fun i =>
  match i with
  | [] => .error ([], .unexpected)
  | c :: rest => if f c then .ok (c, rest) else .error (c :: rest, .unexpected)

/-- The predicate of the `satisfy` closure inside `hex_digit` in
`crates/guid-parser/src/lib.rs`. -/
def is_hex (c : Nat) : Bool :=
  (48 ≤ c && c ≤ 57) ||
  (65 ≤ c && c ≤ 70) ||
  (97 ≤ c && c ≤ 102)

/-- The `map` closure inside `hex_digit`: digit value of an accepted byte.
The final branch is Rust's `unreachable!()`; it returns 0 here and is indeed
never reached on bytes accepted by `is_hex`. -/
def hexVal (c : Nat) : Nat :=
  if 48 ≤ c ∧ c ≤ 57 then c - 48
  else if 65 ≤ c ∧ c ≤ 70 then (c - 65) + 10
  else if 97 ≤ c ∧ c ≤ 102 then (c - 97) + 10
  else 0

/-- `hex_digit` from `crates/guid-parser/src/lib.rs`:
`satisfy(is-hex).map(digit-value)`. -/
def hex_digit : P Nat :=
  pbind (satisfy is_hex) (fun c => pret (hexVal c))

/-- `short_chunk`: four hex digits assembled big-endian into a `u16`.
Each digit is below 16, so the `u16` sum is below `2^16` and needs no
truncation. -/
def short_chunk : P Nat :=
  pbind hex_digit fun digit1 =>
  pbind hex_digit fun digit2 =>
  pbind hex_digit fun digit3 =>
  pbind hex_digit fun digit4 =>
  pret ((digit1 <<< 12) + (digit2 <<< 8) + (digit3 <<< 4) + digit4)

/-- `medium_chunk`: two short chunks assembled big-endian into a `u32`. -/
def medium_chunk : P Nat :=
  pbind short_chunk fun short1 =>
  pbind short_chunk fun short2 =>
  pret ((short1 <<< 16) + short2)

/-- The `u48` struct: 16-bit high part and 32-bit low part. -/
structure u48 where
  hi : Nat
  lo : Nat
deriving DecidableEq, Repr

/-- `u48::to_u64`. -/
def u48.to_u64 (self : u48) : Nat := (self.hi <<< 32) + self.lo

/-- `long_chunk`: a short chunk (high 16 bits) then a medium chunk (low
32 bits), forming a `u48`. -/
def long_chunk : P u48 :=
  pbind short_chunk fun hi =>
  pbind medium_chunk fun lo =>
  pret { hi, lo }

/-- The matching loop of chomp's `string` parser: consume the needle
byte-by-byte; on the first mismatch (or end of input) fail with
`expected b` where `b` is the next unmatched needle byte, the remaining
input standing at the mismatch point. -/
def stringLoop : List Nat → List Nat → Except (List Nat × PError) (List Nat × List Nat)
  | [], i => .ok ([], i)
  | e :: _, [] => .error ([], .expected e)
  | e :: es, c :: cs =>
      if c = e then
        match stringLoop es cs with
        | .ok (m, rest) => .ok (e :: m, rest)
        | .error err => .error err
      else .error (c :: cs, .expected e)

/-- chomp's `string` parser (used as `string(b"-")` in `chunks`). -/
def stringP (s : List Nat) : P (List Nat) := fun i => stringLoop s i

/-- The `Chunks` struct of `crates/guid-parser/src/lib.rs`. -/
structure Chunks where
  chunk1 : Nat
  chunk2 : Nat
  chunk3 : Nat
  chunk4 : Nat
  chunk5 : u48
deriving DecidableEq, Repr

/-- `Chunks::to_bytes`: the 16-byte canonical serialization.  Each entry
mirrors the Rust expression `((field & MASK) >> SHIFT) as u8`; the `% 256`
is the `as u8` cast. -/
def Chunks.to_bytes (self : Chunks) : List Nat :=
  [ ((self.chunk1    &&& 0xFF000000) >>> 24) % 256,
    ((self.chunk1    &&& 0x00FF0000) >>> 16) % 256,
    ((self.chunk1    &&& 0x0000FF00) >>>  8) % 256,
    ((self.chunk1    &&& 0x000000FF)       ) % 256,
    ((self.chunk2    &&&     0xFF00) >>>  8) % 256,
    ((self.chunk2    &&&     0x00FF)       ) % 256,
    ((self.chunk3    &&&     0xFF00) >>>  8) % 256,
    ((self.chunk3    &&&     0x00FF)       ) % 256,
    ((self.chunk4    &&&     0xFF00) >>>  8) % 256,
    ((self.chunk4    &&&     0x00FF)       ) % 256,
    ((self.chunk5.hi &&&     0xFF00) >>>  8) % 256,
    ((self.chunk5.hi &&&     0x00FF)       ) % 256,
    ((self.chunk5.lo &&& 0xFF000000) >>> 24) % 256,
    ((self.chunk5.lo &&& 0x00FF0000) >>> 16) % 256,
    ((self.chunk5.lo &&& 0x0000FF00) >>>  8) % 256,
    ((self.chunk5.lo &&& 0x000000FF)       ) % 256 ]

/-- `Chunks::to_parts`: the first three chunks plus bytes 8..15 of
`to_bytes`, as used by the compile-time macro. -/
def Chunks.to_parts (self : Chunks) : Nat × Nat × Nat × List Nat :=
  let b := self.to_bytes
  (self.chunk1, self.chunk2, self.chunk3,
   [b.getD 8 0, b.getD 9 0, b.getD 10 0, b.getD 11 0,
    b.getD 12 0, b.getD 13 0, b.getD 14 0, b.getD 15 0])

/-- The platform-native `GUID` struct (winapi `guiddef::GUID`): three
integer members and an 8-byte tail array. -/
structure GUID where
  Data1 : Nat
  Data2 : Nat
  Data3 : Nat
  Data4 : List Nat
deriving DecidableEq, Repr

/-- `Chunks::to_guid`: build the platform-native struct, computing the tail
array directly by shifts and masks (each `% 256` is the `as u8` cast). -/
def Chunks.to_guid (self : Chunks) : GUID :=
  { Data1 := self.chunk1,
    Data2 := self.chunk2,
    Data3 := self.chunk3,
    Data4 :=
      [ ((self.chunk4    &&&     0xFF00) >>>  8) % 256,
        ((self.chunk4    &&&     0x00FF)       ) % 256,
        ((self.chunk5.hi &&&     0xFF00) >>>  8) % 256,
        ((self.chunk5.hi &&&     0x00FF)       ) % 256,
        ((self.chunk5.lo &&& 0xFF000000) >>> 24) % 256,
        ((self.chunk5.lo &&& 0x00FF0000) >>> 16) % 256,
        ((self.chunk5.lo &&& 0x0000FF00) >>>  8) % 256,
        ((self.chunk5.lo &&& 0x000000FF)       ) % 256 ] }

/-- `chunks` from `crates/guid-parser/src/lib.rs`: medium chunk, then
hyphen-separated short chunks, then the long chunk.  45 is ASCII `-`. -/
def chunks : P Chunks :=
  pbind medium_chunk fun chunk1 =>
  pbind (stringP [45]) fun _ =>
  pbind short_chunk fun chunk2 =>
  pbind (stringP [45]) fun _ =>
  pbind short_chunk fun chunk3 =>
  pbind (stringP [45]) fun _ =>
  pbind short_chunk fun chunk4 =>
  pbind (stringP [45]) fun _ =>
  pbind long_chunk fun chunk5 =>
  pret { chunk1, chunk2, chunk3, chunk4, chunk5 }

/-- chomp's `parse_only`: run the parser on the complete input; on success
the remaining (trailing) input is discarded, on failure the remaining input
at the failure point is returned alongside the error. -/
def parse_only {α : Type} (p : P α) (input : List Nat) :
    Except (List Nat × PError) α :=
  match p input with
  | .ok (a, _) => .ok a
  | .error e => .error e

/-- Display of chomp's `Error<u8>` (`expected {:?}` / `unexpected`), used by
`e.to_string()` in `parse_chunks`. -/
def errToString : PError → String
  | .expected t => "expected " ++ toString t
  | .unexpected => "unexpected"

/-- `ParseGuidError` from `src/lib.rs`: wraps only the error message
string. -/
structure ParseGuidError where
  msg : String
deriving DecidableEq, Repr

/-- `parse_chunks` from `src/lib.rs`: run `parse_only guid_parser::chunks`
and fold any failure into a `ParseGuidError`.  The closure
`|(_, e)| ...` discards the remaining-input component of the failure. -/
def parse_chunks (src : List Nat) : Except ParseGuidError Chunks :=
  match parse_only chunks src with
  | .ok c => .ok c
  | .error (_, e) => .error { msg := errToString e }

/-- `parse_bytes` from `src/lib.rs`. -/
def parse_bytes (src : List Nat) : Except ParseGuidError (List Nat) :=
  match parse_chunks src with
  | .ok c => .ok c.to_bytes
  | .error e => .error e

/-- The big-endian decoded value of a list of hex-digit bytes (the abstract
"decoded field" of the spec's grammar). -/
def hexFold (ds : List Nat) : Nat :=
  ds.foldl (fun acc d => 16 * acc + hexVal d) 0

/-- Big-endian byte serialization of a value into `n` bytes (spec-side
description of the canonical layout). -/
def beBytes : Nat → Nat → List Nat
  | 0, _ => []
  | n + 1, v => (v / 2 ^ (8 * n)) % 256 :: beBytes n v

/-- Modelled from the spec: the canonical hyphenated hex rendering of a
16-byte array (8-4-4-4-12 hex digits), parameterized by the digit alphabet.
No formatter exists in the repository; this follows §6 of the spec. -/
def hexChar (upper : Bool) (n : Nat) : Nat :=
  if n < 10 then 48 + n
  else if upper then 65 + (n - 10) else 97 + (n - 10)

/-- Modelled from the spec: two hex characters of one byte, high nibble
first. -/
def byteHex (upper : Bool) (b : Nat) : List Nat :=
  [hexChar upper (b / 16), hexChar upper (b % 16)]

/-- Modelled from the spec: format a 16-byte array as the canonical
36-character hyphenated string, 8-4-4-4-12 hex digits with the four
single hyphens (45 is `-`).  Only 16-byte arrays are canonical; other
lengths are out of the spec's scope and map to the empty string. -/
def format_bytes (upper : Bool) (bs : List Nat) : List Nat :=
  match bs with
  | [q0, q1, q2, q3, q4, q5, q6, q7, q8, q9, q10, q11, q12, q13, q14, q15] =>
    byteHex upper q0 ++ byteHex upper q1 ++
    byteHex upper q2 ++ byteHex upper q3 ++
    45 :: (byteHex upper q4 ++ byteHex upper q5 ++
    45 :: (byteHex upper q6 ++ byteHex upper q7 ++
    45 :: (byteHex upper q8 ++ byteHex upper q9 ++
    45 :: (byteHex upper q10 ++ byteHex upper q11 ++
    byteHex upper q12 ++ byteHex upper q13 ++
    byteHex upper q14 ++ byteHex upper q15))))
  | _ => []

/-! ## Basic lemmas about the embedded parsers -/

theorem pbind_ok_rw {α β : Type} {p : P α} {f : α → P β} {i : List Nat} {a : α}
    {m : List Nat} (h : p i = .ok (a, m)) : pbind p f i = f a m := by
  unfold pbind
  rw [h]

theorem pbind_err_rw {α β : Type} {p : P α} {f : α → P β} {i : List Nat}
    {e : List Nat × PError} (h : p i = .error e) : pbind p f i = .error e := by
  unfold pbind
  rw [h]

theorem pbind_ok_elim {α β : Type} {p : P α} {f : α → P β} {i : List Nat}
    {v : β} {r : List Nat} (h : pbind p f i = .ok (v, r)) :
    ∃ a m, p i = .ok (a, m) ∧ f a m = .ok (v, r) := by
  unfold pbind at h
  cases hp : p i with
  | error e => rw [hp] at h; exact absurd h (by simp)
  | ok am =>
    obtain ⟨a, m⟩ := am
    rw [hp] at h
    exact ⟨a, m, rfl, by simpa using h⟩

theorem hex_digit_ok {c : Nat} (rest : List Nat) (h : is_hex c = true) :
    hex_digit (c :: rest) = .ok (hexVal c, rest) := by
  simp [hex_digit, pbind, satisfy, h, pret]

theorem hex_digit_err {c : Nat} (rest : List Nat) (h : is_hex c = false) :
    hex_digit (c :: rest) = .error (c :: rest, .unexpected) := by
  simp [hex_digit, pbind, satisfy, h]

theorem hex_digit_nil : hex_digit [] = .error ([], .unexpected) := rfl

theorem hexVal_lt (c : Nat) : hexVal c < 16 := by
  unfold hexVal
  split
  · omega
  · split
    · omega
    · split <;> omega

theorem hex_ne_hyphen {c : Nat} (h : is_hex c = true) : c ≠ 45 := by
  simp [is_hex] at h
  omega

theorem hex_digit_ok_elim {i : List Nat} {v : Nat} {r : List Nat}
    (h : hex_digit i = .ok (v, r)) : v < 16 := by
  match i with
  | [] => rw [hex_digit_nil] at h; exact absurd h (by simp)
  | c :: rest =>
    by_cases hc : is_hex c
    · rw [hex_digit_ok rest hc] at h
      simp at h
      rw [← h.1]
      exact hexVal_lt c
    · rw [hex_digit_err rest (by simpa using hc)] at h
      exact absurd h (by simp)

theorem stringP_hyphen_ok (rest : List Nat) :
    stringP [45] (45 :: rest) = .ok ([45], rest) := by
  simp [stringP, stringLoop]

theorem stringP_hyphen_err {c : Nat} (rest : List Nat) (h : c ≠ 45) :
    stringP [45] (c :: rest) = .error (c :: rest, .expected 45) := by
  simp [stringP, stringLoop, h]

theorem stringP_hyphen_nil : stringP [45] [] = .error ([], .expected 45) := rfl

/-! ## The mask-and-shift byte extraction in divisions and remainders -/

theorem maskShift (x k : Nat) :
    ((x &&& ((2 ^ 8 - 1) <<< k)) >>> k) % 2 ^ 8 = x / 2 ^ k % 2 ^ 8 := by
  apply Nat.eq_of_testBit_eq
  intro i
  rw [← Nat.shiftRight_eq_div_pow x k]
  simp only [Nat.testBit_mod_two_pow, Nat.testBit_shiftRight, Nat.testBit_and,
    Nat.testBit_shiftLeft, Nat.testBit_two_pow_sub_one]
  by_cases h : i < 8
  · simp [h, Nat.add_sub_cancel_left]
  · simp [h]

theorem mask24 (x : Nat) : ((x &&& 0xFF000000) >>> 24) % 256 = x / 2 ^ 24 % 256 := by
  have h := maskShift x 24
  norm_num [Nat.shiftLeft_eq] at h
  exact h

theorem mask16 (x : Nat) : ((x &&& 0x00FF0000) >>> 16) % 256 = x / 2 ^ 16 % 256 := by
  have h := maskShift x 16
  norm_num [Nat.shiftLeft_eq] at h
  exact h

theorem mask8 (x : Nat) : ((x &&& 0xFF00) >>> 8) % 256 = x / 2 ^ 8 % 256 := by
  have h := maskShift x 8
  norm_num [Nat.shiftLeft_eq] at h
  exact h

theorem mask0 (x : Nat) : (x &&& 0xFF) % 256 = x % 256 := by
  have h : (0xFF : Nat) = 2 ^ 8 - 1 := by norm_num
  rw [h, Nat.and_pow_two_sub_one_eq_mod]
  simp

/-- `to_bytes` written with divisions and remainders instead of masks and
shifts (valid for arbitrary field values). -/
theorem to_bytes_eq (c : Chunks) :
    c.to_bytes =
      [c.chunk1 / 2 ^ 24 % 256, c.chunk1 / 2 ^ 16 % 256,
       c.chunk1 / 2 ^ 8 % 256, c.chunk1 % 256,
       c.chunk2 / 2 ^ 8 % 256, c.chunk2 % 256,
       c.chunk3 / 2 ^ 8 % 256, c.chunk3 % 256,
       c.chunk4 / 2 ^ 8 % 256, c.chunk4 % 256,
       c.chunk5.hi / 2 ^ 8 % 256, c.chunk5.hi % 256,
       c.chunk5.lo / 2 ^ 24 % 256, c.chunk5.lo / 2 ^ 16 % 256,
       c.chunk5.lo / 2 ^ 8 % 256, c.chunk5.lo % 256] := by
  simp [Chunks.to_bytes, mask24, mask16, mask8, mask0]


/-! ## Successful parses of well-formed inputs -/

/-- The value assembled by `short_chunk` from four hex digits. -/
def val4 (d1 d2 d3 d4 : Nat) : Nat :=
  (hexVal d1 <<< 12) + (hexVal d2 <<< 8) + (hexVal d3 <<< 4) + hexVal d4

/-- The value assembled by `medium_chunk` from eight hex digits. -/
def val8 (d1 d2 d3 d4 d5 d6 d7 d8 : Nat) : Nat :=
  (val4 d1 d2 d3 d4 <<< 16) + val4 d5 d6 d7 d8

/-- The value assembled by `long_chunk` from twelve hex digits. -/
def val12 (d1 d2 d3 d4 d5 d6 d7 d8 d9 d10 d11 d12 : Nat) : u48 :=
  { hi := val4 d1 d2 d3 d4, lo := val8 d5 d6 d7 d8 d9 d10 d11 d12 }

theorem short_chunk_ok {d1 d2 d3 d4 : Nat} (rest : List Nat)
    (h1 : is_hex d1 = true) (h2 : is_hex d2 = true)
    (h3 : is_hex d3 = true) (h4 : is_hex d4 = true) :
    short_chunk (d1 :: d2 :: d3 :: d4 :: rest) = .ok (val4 d1 d2 d3 d4, rest) := by
  simp only [short_chunk, pbind, hex_digit_ok, pret, val4, h1, h2, h3, h4]

theorem medium_chunk_ok {d1 d2 d3 d4 d5 d6 d7 d8 : Nat} (rest : List Nat)
    (h1 : is_hex d1 = true) (h2 : is_hex d2 = true)
    (h3 : is_hex d3 = true) (h4 : is_hex d4 = true)
    (h5 : is_hex d5 = true) (h6 : is_hex d6 = true)
    (h7 : is_hex d7 = true) (h8 : is_hex d8 = true) :
    medium_chunk (d1 :: d2 :: d3 :: d4 :: d5 :: d6 :: d7 :: d8 :: rest) =
      .ok (val8 d1 d2 d3 d4 d5 d6 d7 d8, rest) := by
  simp only [medium_chunk, pbind, short_chunk_ok, pret, val8,
    h1, h2, h3, h4, h5, h6, h7, h8]

theorem long_chunk_ok {d1 d2 d3 d4 d5 d6 d7 d8 d9 d10 d11 d12 : Nat} (rest : List Nat)
    (h1 : is_hex d1 = true) (h2 : is_hex d2 = true)
    (h3 : is_hex d3 = true) (h4 : is_hex d4 = true)
    (h5 : is_hex d5 = true) (h6 : is_hex d6 = true)
    (h7 : is_hex d7 = true) (h8 : is_hex d8 = true)
    (h9 : is_hex d9 = true) (h10 : is_hex d10 = true)
    (h11 : is_hex d11 = true) (h12 : is_hex d12 = true) :
    long_chunk (d1 :: d2 :: d3 :: d4 :: d5 :: d6 :: d7 :: d8 :: d9 :: d10 :: d11 :: d12 :: rest) =
      .ok (val12 d1 d2 d3 d4 d5 d6 d7 d8 d9 d10 d11 d12, rest) := by
  simp only [long_chunk, pbind, short_chunk_ok, medium_chunk_ok, pret, val12,
    h1, h2, h3, h4, h5, h6, h7, h8, h9, h10, h11, h12]

theorem chunks_ok (a1 a2 a3 a4 a5 a6 a7 a8 b1 b2 b3 b4 c1 c2 c3 c4 d1 d2 d3 d4 e1 e2 e3 e4 e5 e6 e7 e8 e9 e10 e11 e12 : Nat) (rest : List Nat)
    (ha1 : is_hex a1 = true) (ha2 : is_hex a2 = true) (ha3 : is_hex a3 = true)
    (ha4 : is_hex a4 = true) (ha5 : is_hex a5 = true) (ha6 : is_hex a6 = true)
    (ha7 : is_hex a7 = true) (ha8 : is_hex a8 = true) (hb1 : is_hex b1 = true)
    (hb2 : is_hex b2 = true) (hb3 : is_hex b3 = true) (hb4 : is_hex b4 = true)
    (hc1 : is_hex c1 = true) (hc2 : is_hex c2 = true) (hc3 : is_hex c3 = true)
    (hc4 : is_hex c4 = true) (hd1 : is_hex d1 = true) (hd2 : is_hex d2 = true)
    (hd3 : is_hex d3 = true) (hd4 : is_hex d4 = true) (he1 : is_hex e1 = true)
    (he2 : is_hex e2 = true) (he3 : is_hex e3 = true) (he4 : is_hex e4 = true)
    (he5 : is_hex e5 = true) (he6 : is_hex e6 = true) (he7 : is_hex e7 = true)
    (he8 : is_hex e8 = true) (he9 : is_hex e9 = true) (he10 : is_hex e10 = true)
    (he11 : is_hex e11 = true) (he12 : is_hex e12 = true) :
    chunks (a1 :: a2 :: a3 :: a4 :: a5 :: a6 :: a7 :: a8 :: 45 :: b1 :: b2 :: b3 :: b4 :: 45 :: c1 :: c2 :: c3 :: c4 :: 45 :: d1 :: d2 :: d3 :: d4 :: 45 :: e1 :: e2 :: e3 :: e4 :: e5 :: e6 :: e7 :: e8 :: e9 :: e10 :: e11 :: e12 :: rest) =
      .ok ({ chunk1 := val8 a1 a2 a3 a4 a5 a6 a7 a8,
             chunk2 := val4 b1 b2 b3 b4,
             chunk3 := val4 c1 c2 c3 c4,
             chunk4 := val4 d1 d2 d3 d4,
             chunk5 := val12 e1 e2 e3 e4 e5 e6 e7 e8 e9 e10 e11 e12 }, rest) := by
  simp only [chunks, pbind, medium_chunk_ok, short_chunk_ok, long_chunk_ok,
    stringP_hyphen_ok, pret, ha1, ha2, ha3, ha4, ha5, ha6, ha7, ha8, hb1, hb2, hb3, hb4, hc1, hc2, hc3, hc4, hd1, hd2, hd3, hd4, he1, he2, he3, he4, he5, he6, he7, he8, he9, he10, he11, he12]


/-! ## Bounds carried by successful parses -/

theorem short_chunk_bound {i : List Nat} {v : Nat} {r : List Nat}
    (h : short_chunk i = .ok (v, r)) : v < 2 ^ 16 := by
  unfold short_chunk at h
  obtain ⟨d1, i1, hp1, h⟩ := pbind_ok_elim h
  obtain ⟨d2, i2, hp2, h⟩ := pbind_ok_elim h
  obtain ⟨d3, i3, hp3, h⟩ := pbind_ok_elim h
  obtain ⟨d4, i4, hp4, h⟩ := pbind_ok_elim h
  have b1 := hex_digit_ok_elim hp1
  have b2 := hex_digit_ok_elim hp2
  have b3 := hex_digit_ok_elim hp3
  have b4 := hex_digit_ok_elim hp4
  unfold pret at h
  simp only [Except.ok.injEq, Prod.mk.injEq] at h
  rw [← h.1]
  simp only [Nat.shiftLeft_eq]
  omega

theorem medium_chunk_bound {i : List Nat} {v : Nat} {r : List Nat}
    (h : medium_chunk i = .ok (v, r)) : v < 2 ^ 32 := by
  unfold medium_chunk at h
  obtain ⟨s1, i1, hp1, h⟩ := pbind_ok_elim h
  obtain ⟨s2, i2, hp2, h⟩ := pbind_ok_elim h
  have b1 := short_chunk_bound hp1
  have b2 := short_chunk_bound hp2
  unfold pret at h
  simp only [Except.ok.injEq, Prod.mk.injEq] at h
  rw [← h.1]
  simp only [Nat.shiftLeft_eq]
  omega

theorem long_chunk_bound {i : List Nat} {v : u48} {r : List Nat}
    (h : long_chunk i = .ok (v, r)) : v.hi < 2 ^ 16 ∧ v.lo < 2 ^ 32 := by
  unfold long_chunk at h
  obtain ⟨hi, i1, hp1, h⟩ := pbind_ok_elim h
  obtain ⟨lo, i2, hp2, h⟩ := pbind_ok_elim h
  have b1 := short_chunk_bound hp1
  have b2 := medium_chunk_bound hp2
  unfold pret at h
  simp only [Except.ok.injEq, Prod.mk.injEq] at h
  rw [← h.1]
  exact ⟨b1, b2⟩

theorem chunks_bounds {src : List Nat} {c : Chunks} {r : List Nat}
    (h : chunks src = .ok (c, r)) :
    c.chunk1 < 2 ^ 32 ∧ c.chunk2 < 2 ^ 16 ∧ c.chunk3 < 2 ^ 16 ∧
    c.chunk4 < 2 ^ 16 ∧ c.chunk5.hi < 2 ^ 16 ∧ c.chunk5.lo < 2 ^ 32 := by
  unfold chunks at h
  obtain ⟨k1, i1, hp1, h⟩ := pbind_ok_elim h
  obtain ⟨s1, i2, hs1, h⟩ := pbind_ok_elim h
  obtain ⟨k2, i3, hp2, h⟩ := pbind_ok_elim h
  obtain ⟨s2, i4, hs2, h⟩ := pbind_ok_elim h
  obtain ⟨k3, i5, hp3, h⟩ := pbind_ok_elim h
  obtain ⟨s3, i6, hs3, h⟩ := pbind_ok_elim h
  obtain ⟨k4, i7, hp4, h⟩ := pbind_ok_elim h
  obtain ⟨s4, i8, hs4, h⟩ := pbind_ok_elim h
  obtain ⟨k5, i9, hp5, h⟩ := pbind_ok_elim h
  have b1 := medium_chunk_bound hp1
  have b2 := short_chunk_bound hp2
  have b3 := short_chunk_bound hp3
  have b4 := short_chunk_bound hp4
  have b5 := long_chunk_bound hp5
  unfold pret at h
  simp only [Except.ok.injEq, Prod.mk.injEq] at h
  rw [← h.1]
  exact ⟨b1, b2, b3, b4, b5.1, b5.2⟩

theorem parse_chunks_ok_elim {src : List Nat} {c : Chunks}
    (h : parse_chunks src = .ok c) : ∃ r, chunks src = .ok (c, r) := by
  unfold parse_chunks parse_only at h
  cases hc : chunks src with
  | error e => rw [hc] at h; exact absurd h (by simp)
  | ok am =>
    obtain ⟨a, r⟩ := am
    rw [hc] at h
    simp only [Except.ok.injEq] at h
    exact ⟨r, by rw [h]⟩

theorem parse_chunks_bounds {src : List Nat} {c : Chunks}
    (h : parse_chunks src = .ok c) :
    c.chunk1 < 2 ^ 32 ∧ c.chunk2 < 2 ^ 16 ∧ c.chunk3 < 2 ^ 16 ∧
    c.chunk4 < 2 ^ 16 ∧ c.chunk5.hi < 2 ^ 16 ∧ c.chunk5.lo < 2 ^ 32 := by
  obtain ⟨r, hc⟩ := parse_chunks_ok_elim h
  exact chunks_bounds hc

/-! ## Claims -/

/-- C4: for every successfully parsed GUID, the platform-native structure has
its first three members equal to field1, field2 and field3, and its 8-byte
tail array equal to the high and low bytes of field4, the high and low bytes
of field5-hi, and the four big-endian bytes of field5-lo — exactly bytes
8 through 15 of the canonical byte serialization. -/
theorem C4_to_guid_members {src : List Nat} {c : Chunks}
    (h : parse_chunks src = .ok c) :
    c.to_guid.Data1 = c.chunk1 ∧ c.to_guid.Data2 = c.chunk2 ∧
    c.to_guid.Data3 = c.chunk3 ∧
    c.to_guid.Data4 =
      [c.chunk4 / 256, c.chunk4 % 256,
       c.chunk5.hi / 256, c.chunk5.hi % 256,
       c.chunk5.lo / 2 ^ 24, c.chunk5.lo / 2 ^ 16 % 256,
       c.chunk5.lo / 2 ^ 8 % 256, c.chunk5.lo % 256] ∧
    c.to_guid.Data4 = c.to_bytes.drop 8 := by
  obtain ⟨-, -, -, b4, b5hi, b5lo⟩ := parse_chunks_bounds h
  refine ⟨rfl, rfl, rfl, ?_, rfl⟩
  show [((c.chunk4 &&& 0xFF00) >>> 8) % 256, (c.chunk4 &&& 0x00FF) % 256,
        ((c.chunk5.hi &&& 0xFF00) >>> 8) % 256, (c.chunk5.hi &&& 0x00FF) % 256,
        ((c.chunk5.lo &&& 0xFF000000) >>> 24) % 256,
        ((c.chunk5.lo &&& 0x00FF0000) >>> 16) % 256,
        ((c.chunk5.lo &&& 0x0000FF00) >>> 8) % 256,
        (c.chunk5.lo &&& 0x000000FF) % 256] = _
  rw [mask8, mask0, mask8, mask0, mask24, mask16, mask8, mask0]
  have e1 : c.chunk4 / 2 ^ 8 % 256 = c.chunk4 / 256 := by omega
  have e2 : c.chunk5.hi / 2 ^ 8 % 256 = c.chunk5.hi / 256 := by omega
  have e3 : c.chunk5.lo / 2 ^ 24 % 256 = c.chunk5.lo / 2 ^ 24 := by omega
  rw [e1, e2, e3]

/-- Closed witness for C4 at the GUID of the parser crate's test suite. -/
theorem C4_to_guid_members_witness :
    parse_chunks [99, 97, 102, 101, 102, 48, 48, 100, 45, 67, 65, 70, 69, 45,
      102, 48, 48, 100, 45, 66, 69, 69, 70, 45, 49, 50, 51, 52, 97, 98, 99,
      100, 68, 65, 68, 65] =
      .ok { chunk1 := 0xcafef00d, chunk2 := 0xCAFE, chunk3 := 0xf00d,
            chunk4 := 0xBEEF, chunk5 := { hi := 0x1234, lo := 0xabcdDADA } } ∧
    Chunks.to_guid ({ chunk1 := 0xcafef00d, chunk2 := 0xCAFE,
                      chunk3 := 0xf00d, chunk4 := 0xBEEF,
                      chunk5 := { hi := 0x1234, lo := 0xabcdDADA } }) =
      { Data1 := 0xcafef00d, Data2 := 0xCAFE, Data3 := 0xf00d,
        Data4 := [0xBE, 0xEF, 0x12, 0x34, 0xab, 0xcd, 0xDA, 0xDA] } := by
  have h := C4_to_guid_members (show parse_chunks [99, 97, 102, 101, 102, 48,
    48, 100, 45, 67, 65, 70, 69, 45, 102, 48, 48, 100, 45, 66, 69, 69, 70, 45,
    49, 50, 51, 52, 97, 98, 99, 100, 68, 65, 68, 65] =
      .ok ({ chunk1 := 0xcafef00d, chunk2 := 0xCAFE, chunk3 := 0xf00d,
             chunk4 := 0xBEEF, chunk5 := { hi := 0x1234, lo := 0xabcdDADA } })
    from rfl)
  exact ⟨rfl, rfl⟩

/-- C10: `to_parts` (which slices bytes 8..15 out of `to_bytes`) and
`to_guid` (which recomputes the tail array with shifts and masks) agree on
every in-range `Chunks` value: the two projection paths are equivalent. -/
theorem C10_to_parts_agrees_to_guid (c : Chunks)
    (h1 : c.chunk1 < 2 ^ 32) (h2 : c.chunk2 < 2 ^ 16) (h3 : c.chunk3 < 2 ^ 16)
    (h4 : c.chunk4 < 2 ^ 16) (h5 : c.chunk5.hi < 2 ^ 16)
    (h6 : c.chunk5.lo < 2 ^ 32) :
    c.to_parts.2.2.2 = c.to_bytes.drop 8 ∧
    c.to_parts = (c.to_guid.Data1, c.to_guid.Data2, c.to_guid.Data3,
      c.to_guid.Data4) :=
  ⟨rfl, rfl⟩

/-- Closed witness for C10 on an in-range `Chunks` value. -/
theorem C10_to_parts_agrees_to_guid_witness :
    (0xcafef00d : Nat) < 2 ^ 32 ∧
    Chunks.to_parts ({ chunk1 := 0xcafef00d, chunk2 := 0xCAFE,
                       chunk3 := 0xf00d, chunk4 := 0xBEEF,
                       chunk5 := { hi := 0x1234, lo := 0xabcdDADA } }) =
      (0xcafef00d, 0xCAFE, 0xf00d,
       [0xBE, 0xEF, 0x12, 0x34, 0xab, 0xcd, 0xDA, 0xDA]) := by
  have h := C10_to_parts_agrees_to_guid
    { chunk1 := 0xcafef00d, chunk2 := 0xCAFE, chunk3 := 0xf00d,
      chunk4 := 0xBEEF, chunk5 := { hi := 0x1234, lo := 0xabcdDADA } }
    (by decide) (by decide) (by decide) (by decide) (by decide) (by decide)
  refine ⟨by decide, ?_⟩
  rw [h.2]
  rfl

/-- C7: the hex-digit reader accepts exactly the ASCII bytes 0-9, A-F, a-f,
returning the 4-bit value (0-9 for digits, 10-15 for letters of either case),
fails with `unexpected` on any other byte and at end of input, and consumes
exactly the one byte it examined. -/
theorem C7_hex_digit_contract (b : Nat) (rest : List Nat) :
    ((48 ≤ b ∧ b ≤ 57) → hex_digit (b :: rest) = .ok (b - 48, rest)) ∧
    ((65 ≤ b ∧ b ≤ 70) → hex_digit (b :: rest) = .ok (b - 65 + 10, rest)) ∧
    ((97 ≤ b ∧ b ≤ 102) → hex_digit (b :: rest) = .ok (b - 97 + 10, rest)) ∧
    (¬((48 ≤ b ∧ b ≤ 57) ∨ (65 ≤ b ∧ b ≤ 70) ∨ (97 ≤ b ∧ b ≤ 102)) →
      hex_digit (b :: rest) = .error (b :: rest, .unexpected)) ∧
    hex_digit [] = .error ([], .unexpected) ∧
    (∀ v r, hex_digit (b :: rest) = .ok (v, r) → v < 16 ∧ r = rest) := by
  refine ⟨?_, ?_, ?_, ?_, rfl, ?_⟩
  · intro hb
    rw [hex_digit_ok rest (by simp [is_hex]; omega)]
    have : hexVal b = b - 48 := by unfold hexVal; rw [if_pos hb]
    rw [this]
  · intro hb
    rw [hex_digit_ok rest (by simp [is_hex]; omega)]
    have : hexVal b = b - 65 + 10 := by
      unfold hexVal
      rw [if_neg (by omega), if_pos hb]
    rw [this]
  · intro hb
    rw [hex_digit_ok rest (by simp [is_hex]; omega)]
    have : hexVal b = b - 97 + 10 := by
      unfold hexVal
      rw [if_neg (by omega), if_neg (by omega), if_pos hb]
    rw [this]
  · intro hb
    exact hex_digit_err rest (by simp [is_hex]; omega)
  · intro v r h
    refine ⟨hex_digit_ok_elim h, ?_⟩
    by_cases hc : is_hex b
    · rw [hex_digit_ok rest hc] at h
      simp only [Except.ok.injEq, Prod.mk.injEq] at h
      exact h.2.symm
    · rw [hex_digit_err rest (by simpa using hc)] at h
      exact absurd h (by simp)

/-- Closed witness for C7 at bytes `'c'` (lower-case hex) and `'G'`
(rejected). -/
theorem C7_hex_digit_contract_witness :
    hex_digit [99, 7] = .ok (12, [7]) ∧
    hex_digit [71] = .error ([71], .unexpected) := by
  have h1 := (C7_hex_digit_contract 99 [7]).2.2.1 (by omega)
  have h2 := (C7_hex_digit_contract 71 []).2.2.2.1 (by omega)
  exact ⟨by simpa using h1, by simpa using h2⟩


/-! ## Decoded values as big-endian digit folds -/

theorem val4_eq (d1 d2 d3 d4 : Nat) :
    val4 d1 d2 d3 d4 = hexFold [d1, d2, d3, d4] := by
  simp only [val4, hexFold, List.foldl, Nat.shiftLeft_eq]
  ring

theorem val8_eq (d1 d2 d3 d4 d5 d6 d7 d8 : Nat) :
    val8 d1 d2 d3 d4 d5 d6 d7 d8 = hexFold [d1, d2, d3, d4, d5, d6, d7, d8] := by
  simp only [val8, val4, hexFold, List.foldl, Nat.shiftLeft_eq]
  ring

theorem parse_bytes_of_chunks {src : List Nat} {c : Chunks} {r : List Nat}
    (h : chunks src = .ok (c, r)) : parse_bytes src = .ok c.to_bytes := by
  unfold parse_bytes parse_chunks parse_only
  rw [h]

theorem parse_chunks_of_chunks {src : List Nat} {c : Chunks} {r : List Nat}
    (h : chunks src = .ok (c, r)) : parse_chunks src = .ok c := by
  unfold parse_chunks parse_only
  rw [h]

/-- C1: every 36-character string of the canonical grammar (8-4-4-4-12 hex
digits separated by single hyphens) parses successfully into exactly 16
bytes: the big-endian bytes of the five decoded fields concatenated in
source order (field1 bytes 0-3, field2 bytes 4-5, field3 bytes 6-7,
field4 bytes 8-9, field5-hi bytes 10-11, field5-lo bytes 12-15). -/
theorem C1_parse_bytes_layout (a1 a2 a3 a4 a5 a6 a7 a8 b1 b2 b3 b4 c1 c2 c3 c4 d1 d2 d3 d4 e1 e2 e3 e4 e5 e6 e7 e8 e9 e10 e11 e12 : Nat)
    (ha1 : is_hex a1 = true) (ha2 : is_hex a2 = true) (ha3 : is_hex a3 = true)
    (ha4 : is_hex a4 = true) (ha5 : is_hex a5 = true) (ha6 : is_hex a6 = true)
    (ha7 : is_hex a7 = true) (ha8 : is_hex a8 = true) (hb1 : is_hex b1 = true)
    (hb2 : is_hex b2 = true) (hb3 : is_hex b3 = true) (hb4 : is_hex b4 = true)
    (hc1 : is_hex c1 = true) (hc2 : is_hex c2 = true) (hc3 : is_hex c3 = true)
    (hc4 : is_hex c4 = true) (hd1 : is_hex d1 = true) (hd2 : is_hex d2 = true)
    (hd3 : is_hex d3 = true) (hd4 : is_hex d4 = true) (he1 : is_hex e1 = true)
    (he2 : is_hex e2 = true) (he3 : is_hex e3 = true) (he4 : is_hex e4 = true)
    (he5 : is_hex e5 = true) (he6 : is_hex e6 = true) (he7 : is_hex e7 = true)
    (he8 : is_hex e8 = true) (he9 : is_hex e9 = true) (he10 : is_hex e10 = true)
    (he11 : is_hex e11 = true) (he12 : is_hex e12 = true) :
    ∃ bs, parse_bytes (a1 :: a2 :: a3 :: a4 :: a5 :: a6 :: a7 :: a8 :: 45 :: b1 :: b2 :: b3 :: b4 :: 45 :: c1 :: c2 :: c3 :: c4 :: 45 :: d1 :: d2 :: d3 :: d4 :: 45 :: e1 :: e2 :: e3 :: e4 :: e5 :: e6 :: e7 :: e8 :: e9 :: e10 :: e11 :: e12 :: ([] : List Nat)) = .ok bs ∧
      bs.length = 16 ∧
      bs = beBytes 4 (hexFold [a1, a2, a3, a4, a5, a6, a7, a8]) ++ beBytes 2 (hexFold [b1, b2, b3, b4]) ++
        beBytes 2 (hexFold [c1, c2, c3, c4]) ++ beBytes 2 (hexFold [d1, d2, d3, d4]) ++
        beBytes 2 (hexFold [e1, e2, e3, e4]) ++ beBytes 4 (hexFold [e5, e6, e7, e8, e9, e10, e11, e12]) := by
  have hc := chunks_ok a1 a2 a3 a4 a5 a6 a7 a8 b1 b2 b3 b4 c1 c2 c3 c4 d1 d2 d3 d4 e1 e2 e3 e4 e5 e6 e7 e8 e9 e10 e11 e12 [] ha1 ha2 ha3 ha4 ha5 ha6 ha7 ha8 hb1 hb2 hb3 hb4 hc1 hc2 hc3 hc4 hd1 hd2 hd3 hd4 he1 he2 he3 he4 he5 he6 he7 he8 he9 he10 he11 he12
  refine ⟨_, parse_bytes_of_chunks hc, by rw [to_bytes_eq]; rfl, ?_⟩
  rw [to_bytes_eq]
  simp only [val12, val8_eq, val4_eq, beBytes, List.append_eq]
  norm_num


/-- Closed witness for C1 at the GUID of the crate documentation. -/
theorem C1_parse_bytes_layout_witness :
    ∃ bs, parse_bytes [54, 66, 50, 57, 70, 67, 52, 48, 45, 67, 65, 52, 55, 45, 49, 48, 54, 55, 45, 66, 51, 49, 68, 45, 48, 48, 68, 68, 48, 49, 48, 54, 54, 50, 68, 65] = .ok bs ∧
      bs.length = 16 ∧
      bs = beBytes 4 (hexFold [54, 66, 50, 57, 70, 67, 52, 48]) ++ beBytes 2 (hexFold [67, 65, 52, 55]) ++
      beBytes 2 (hexFold [49, 48, 54, 55]) ++ beBytes 2 (hexFold [66, 51, 49, 68]) ++
      beBytes 2 (hexFold [48, 48, 68, 68]) ++ beBytes 4 (hexFold [48, 49, 48, 54, 54, 50, 68, 65]) :=
  C1_parse_bytes_layout 54 66 50 57 70 67 52 48 67 65 52 55 49 48 54 55 66 51 49 68 48 48 68 68 48 49 48 54 54 50 68 65
    rfl rfl rfl rfl rfl rfl rfl rfl rfl rfl rfl rfl rfl rfl rfl rfl rfl rfl rfl rfl rfl rfl rfl rfl rfl rfl rfl rfl rfl rfl rfl rfl

/-- C9: a valid 36-byte canonical GUID prefix parses successfully to the
same 16 bytes whatever trailing bytes follow: the runtime entry point does
no end-of-input check, so trailing content is ignored, not rejected. -/
theorem C9_trailing_bytes_ignored (a1 a2 a3 a4 a5 a6 a7 a8 b1 b2 b3 b4 c1 c2 c3 c4 d1 d2 d3 d4 e1 e2 e3 e4 e5 e6 e7 e8 e9 e10 e11 e12 : Nat) (rest : List Nat)
    (ha1 : is_hex a1 = true) (ha2 : is_hex a2 = true) (ha3 : is_hex a3 = true)
    (ha4 : is_hex a4 = true) (ha5 : is_hex a5 = true) (ha6 : is_hex a6 = true)
    (ha7 : is_hex a7 = true) (ha8 : is_hex a8 = true) (hb1 : is_hex b1 = true)
    (hb2 : is_hex b2 = true) (hb3 : is_hex b3 = true) (hb4 : is_hex b4 = true)
    (hc1 : is_hex c1 = true) (hc2 : is_hex c2 = true) (hc3 : is_hex c3 = true)
    (hc4 : is_hex c4 = true) (hd1 : is_hex d1 = true) (hd2 : is_hex d2 = true)
    (hd3 : is_hex d3 = true) (hd4 : is_hex d4 = true) (he1 : is_hex e1 = true)
    (he2 : is_hex e2 = true) (he3 : is_hex e3 = true) (he4 : is_hex e4 = true)
    (he5 : is_hex e5 = true) (he6 : is_hex e6 = true) (he7 : is_hex e7 = true)
    (he8 : is_hex e8 = true) (he9 : is_hex e9 = true) (he10 : is_hex e10 = true)
    (he11 : is_hex e11 = true) (he12 : is_hex e12 = true) :
    ∃ bs, parse_bytes (a1 :: a2 :: a3 :: a4 :: a5 :: a6 :: a7 :: a8 :: 45 :: b1 :: b2 :: b3 :: b4 :: 45 :: c1 :: c2 :: c3 :: c4 :: 45 :: d1 :: d2 :: d3 :: d4 :: 45 :: e1 :: e2 :: e3 :: e4 :: e5 :: e6 :: e7 :: e8 :: e9 :: e10 :: e11 :: e12 :: rest) = .ok bs ∧
      parse_bytes (a1 :: a2 :: a3 :: a4 :: a5 :: a6 :: a7 :: a8 :: 45 :: b1 :: b2 :: b3 :: b4 :: 45 :: c1 :: c2 :: c3 :: c4 :: 45 :: d1 :: d2 :: d3 :: d4 :: 45 :: e1 :: e2 :: e3 :: e4 :: e5 :: e6 :: e7 :: e8 :: e9 :: e10 :: e11 :: e12 :: ([] : List Nat)) = .ok bs := by
  have hk1 := chunks_ok a1 a2 a3 a4 a5 a6 a7 a8 b1 b2 b3 b4 c1 c2 c3 c4 d1 d2 d3 d4 e1 e2 e3 e4 e5 e6 e7 e8 e9 e10 e11 e12 rest ha1 ha2 ha3 ha4 ha5 ha6 ha7 ha8 hb1 hb2 hb3 hb4 hc1 hc2 hc3 hc4 hd1 hd2 hd3 hd4 he1 he2 he3 he4 he5 he6 he7 he8 he9 he10 he11 he12
  have hk2 := chunks_ok a1 a2 a3 a4 a5 a6 a7 a8 b1 b2 b3 b4 c1 c2 c3 c4 d1 d2 d3 d4 e1 e2 e3 e4 e5 e6 e7 e8 e9 e10 e11 e12 [] ha1 ha2 ha3 ha4 ha5 ha6 ha7 ha8 hb1 hb2 hb3 hb4 hc1 hc2 hc3 hc4 hd1 hd2 hd3 hd4 he1 he2 he3 he4 he5 he6 he7 he8 he9 he10 he11 he12
  exact ⟨_, parse_bytes_of_chunks hk1, parse_bytes_of_chunks hk2⟩

/-- Closed witness for C9: a trailing `F` after a complete GUID is ignored. -/
theorem C9_trailing_bytes_ignored_witness :
    ∃ bs, parse_bytes [54, 66, 50, 57, 70, 67, 52, 48, 45, 67, 65, 52, 55, 45, 49, 48, 54, 55, 45, 66, 51, 49, 68, 45, 48, 48, 68, 68, 48, 49, 48, 54, 54, 50, 68, 65, 70] = .ok bs ∧
      parse_bytes [54, 66, 50, 57, 70, 67, 52, 48, 45, 67, 65, 52, 55, 45, 49, 48, 54, 55, 45, 66, 51, 49, 68, 45, 48, 48, 68, 68, 48, 49, 48, 54, 54, 50, 68, 65] = .ok bs :=
  C9_trailing_bytes_ignored 54 66 50 57 70 67 52 48 67 65 52 55 49 48 54 55 66 51 49 68 48 48 68 68 48 49 48 54 54 50 68 65 [70]
    rfl rfl rfl rfl rfl rfl rfl rfl rfl rfl rfl rfl rfl rfl rfl rfl rfl rfl rfl rfl rfl rfl rfl rfl rfl rfl rfl rfl rfl rfl rfl rfl

/-- C5: the two concrete scenarios of the spec: the documentation GUID
parses to its canonical bytes, and the mixed-case test GUID parses to the
expected chunks and canonical bytes. -/
theorem C5_concrete_scenarios :
    parse_bytes [54, 66, 50, 57, 70, 67, 52, 48, 45, 67, 65, 52, 55, 45, 49, 48, 54, 55, 45, 66, 51, 49, 68, 45, 48, 48, 68, 68, 48, 49, 48, 54, 54, 50, 68, 65] =
      .ok [0x6B, 0x29, 0xFC, 0x40, 0xCA, 0x47, 0x10, 0x67,
           0xB3, 0x1D, 0x00, 0xDD, 0x01, 0x06, 0x62, 0xDA] ∧
    parse_chunks [99, 97, 102, 101, 102, 48, 48, 100, 45, 67, 65, 70, 69, 45,
      102, 48, 48, 100, 45, 66, 69, 69, 70, 45, 49, 50, 51, 52, 97, 98, 99,
      100, 68, 65, 68, 65] =
      .ok ({ chunk1 := 0xcafef00d, chunk2 := 0xCAFE, chunk3 := 0xf00d,
             chunk4 := 0xBEEF, chunk5 := { hi := 0x1234, lo := 0xabcdDADA } }) ∧
    parse_bytes [99, 97, 102, 101, 102, 48, 48, 100, 45, 67, 65, 70, 69, 45,
      102, 48, 48, 100, 45, 66, 69, 69, 70, 45, 49, 50, 51, 52, 97, 98, 99,
      100, 68, 65, 68, 65] =
      .ok [0xca, 0xfe, 0xf0, 0x0d, 0xCA, 0xFE, 0xf0, 0x0d,
           0xBE, 0xEF, 0x12, 0x34, 0xab, 0xcd, 0xDA, 0xDA] :=
  ⟨rfl, rfl, rfl⟩


/-! ## Round-trip through the canonical formatter -/

theorem is_hex_hexChar (u : Bool) {n : Nat} (h : n < 16) :
    is_hex (hexChar u n) = true := by
  cases u <;> unfold hexChar <;> split <;> simp [is_hex] <;> omega

theorem hexVal_hexChar (u : Bool) {n : Nat} (h : n < 16) :
    hexVal (hexChar u n) = n := by
  cases u <;> unfold hexChar hexVal <;> split_ifs <;> omega

theorem val4_bytes (u : Bool) {x y : Nat} (hx : x < 256) (hy : y < 256) :
    val4 (hexChar u (x / 16)) (hexChar u (x % 16))
         (hexChar u (y / 16)) (hexChar u (y % 16)) = 256 * x + y := by
  unfold val4
  rw [hexVal_hexChar u (by omega), hexVal_hexChar u (by omega),
      hexVal_hexChar u (by omega), hexVal_hexChar u (by omega)]
  simp only [Nat.shiftLeft_eq]
  omega

theorem val8_bytes (u : Bool) {x y z w : Nat}
    (hx : x < 256) (hy : y < 256) (hz : z < 256) (hw : w < 256) :
    val8 (hexChar u (x / 16)) (hexChar u (x % 16))
         (hexChar u (y / 16)) (hexChar u (y % 16))
         (hexChar u (z / 16)) (hexChar u (z % 16))
         (hexChar u (w / 16)) (hexChar u (w % 16)) =
      2 ^ 24 * x + 2 ^ 16 * y + 2 ^ 8 * z + w := by
  unfold val8
  rw [val4_bytes u hx hy, val4_bytes u hz hw]
  simp only [Nat.shiftLeft_eq]
  omega

theorem roundtrip_format (u : Bool) (b0 b1 b2 b3 b4 b5 b6 b7 b8 b9 b10 b11 b12 b13 b14 b15 : Nat)
    (g0 : b0 < 256) (g1 : b1 < 256) (g2 : b2 < 256) (g3 : b3 < 256)
    (g4 : b4 < 256) (g5 : b5 < 256) (g6 : b6 < 256) (g7 : b7 < 256)
    (g8 : b8 < 256) (g9 : b9 < 256) (g10 : b10 < 256) (g11 : b11 < 256)
    (g12 : b12 < 256) (g13 : b13 < 256) (g14 : b14 < 256) (g15 : b15 < 256) :
    parse_bytes (format_bytes u [b0, b1, b2, b3, b4, b5, b6, b7, b8, b9, b10, b11, b12, b13, b14, b15]) = .ok [b0, b1, b2, b3, b4, b5, b6, b7, b8, b9, b10, b11, b12, b13, b14, b15] := by
  have hfmt : format_bytes u [b0, b1, b2, b3, b4, b5, b6, b7, b8, b9, b10, b11, b12, b13, b14, b15] =
      (hexChar u (b0 / 16)) :: (hexChar u (b0 % 16)) :: (hexChar u (b1 / 16)) :: (hexChar u (b1 % 16)) :: (hexChar u (b2 / 16)) :: (hexChar u (b2 % 16)) :: (hexChar u (b3 / 16)) :: (hexChar u (b3 % 16)) :: 45 :: (hexChar u (b4 / 16)) :: (hexChar u (b4 % 16)) :: (hexChar u (b5 / 16)) :: (hexChar u (b5 % 16)) :: 45 :: (hexChar u (b6 / 16)) :: (hexChar u (b6 % 16)) :: (hexChar u (b7 / 16)) :: (hexChar u (b7 % 16)) :: 45 :: (hexChar u (b8 / 16)) :: (hexChar u (b8 % 16)) :: (hexChar u (b9 / 16)) :: (hexChar u (b9 % 16)) :: 45 :: (hexChar u (b10 / 16)) :: (hexChar u (b10 % 16)) :: (hexChar u (b11 / 16)) :: (hexChar u (b11 % 16)) :: (hexChar u (b12 / 16)) :: (hexChar u (b12 % 16)) :: (hexChar u (b13 / 16)) :: (hexChar u (b13 % 16)) :: (hexChar u (b14 / 16)) :: (hexChar u (b14 % 16)) :: (hexChar u (b15 / 16)) :: (hexChar u (b15 % 16)) :: ([] : List Nat) := by
    simp [format_bytes, byteHex]
  have hk := chunks_ok (hexChar u (b0 / 16)) (hexChar u (b0 % 16)) (hexChar u (b1 / 16)) (hexChar u (b1 % 16)) (hexChar u (b2 / 16)) (hexChar u (b2 % 16)) (hexChar u (b3 / 16)) (hexChar u (b3 % 16)) (hexChar u (b4 / 16)) (hexChar u (b4 % 16)) (hexChar u (b5 / 16)) (hexChar u (b5 % 16)) (hexChar u (b6 / 16)) (hexChar u (b6 % 16)) (hexChar u (b7 / 16)) (hexChar u (b7 % 16)) (hexChar u (b8 / 16)) (hexChar u (b8 % 16)) (hexChar u (b9 / 16)) (hexChar u (b9 % 16)) (hexChar u (b10 / 16)) (hexChar u (b10 % 16)) (hexChar u (b11 / 16)) (hexChar u (b11 % 16)) (hexChar u (b12 / 16)) (hexChar u (b12 % 16)) (hexChar u (b13 / 16)) (hexChar u (b13 % 16)) (hexChar u (b14 / 16)) (hexChar u (b14 % 16)) (hexChar u (b15 / 16)) (hexChar u (b15 % 16)) ([] : List Nat)
    (is_hex_hexChar u (by omega)) (is_hex_hexChar u (by omega)) (is_hex_hexChar u (by omega)) (is_hex_hexChar u (by omega)) (is_hex_hexChar u (by omega)) (is_hex_hexChar u (by omega)) (is_hex_hexChar u (by omega)) (is_hex_hexChar u (by omega)) (is_hex_hexChar u (by omega)) (is_hex_hexChar u (by omega)) (is_hex_hexChar u (by omega)) (is_hex_hexChar u (by omega)) (is_hex_hexChar u (by omega)) (is_hex_hexChar u (by omega)) (is_hex_hexChar u (by omega)) (is_hex_hexChar u (by omega)) (is_hex_hexChar u (by omega)) (is_hex_hexChar u (by omega)) (is_hex_hexChar u (by omega)) (is_hex_hexChar u (by omega)) (is_hex_hexChar u (by omega)) (is_hex_hexChar u (by omega)) (is_hex_hexChar u (by omega)) (is_hex_hexChar u (by omega)) (is_hex_hexChar u (by omega)) (is_hex_hexChar u (by omega)) (is_hex_hexChar u (by omega)) (is_hex_hexChar u (by omega)) (is_hex_hexChar u (by omega)) (is_hex_hexChar u (by omega)) (is_hex_hexChar u (by omega)) (is_hex_hexChar u (by omega))
  rw [hfmt, parse_bytes_of_chunks hk, to_bytes_eq]
  simp only [val12, val8_bytes, val4_bytes, g0, g1, g2, g3, g4, g5, g6, g7, g8, g9, g10, g11, g12, g13, g14, g15]
  simp only [Except.ok.injEq, List.cons.injEq, and_true]
  omega


/-- C2: formatting any 16-byte array as the canonical hyphenated hex string
and parsing it back with `parse_bytes` returns the array unchanged, for the
lowercase and the uppercase rendering alike; in particular the two
renderings parse to identical bytes. -/
theorem C2_format_parse_roundtrip (b0 b1 b2 b3 b4 b5 b6 b7 b8 b9 b10 b11 b12 b13 b14 b15 : Nat)
    (g0 : b0 < 256) (g1 : b1 < 256) (g2 : b2 < 256) (g3 : b3 < 256)
    (g4 : b4 < 256) (g5 : b5 < 256) (g6 : b6 < 256) (g7 : b7 < 256)
    (g8 : b8 < 256) (g9 : b9 < 256) (g10 : b10 < 256) (g11 : b11 < 256)
    (g12 : b12 < 256) (g13 : b13 < 256) (g14 : b14 < 256) (g15 : b15 < 256) :
    parse_bytes (format_bytes false [b0, b1, b2, b3, b4, b5, b6, b7, b8, b9, b10, b11, b12, b13, b14, b15]) = .ok [b0, b1, b2, b3, b4, b5, b6, b7, b8, b9, b10, b11, b12, b13, b14, b15] ∧
    parse_bytes (format_bytes true [b0, b1, b2, b3, b4, b5, b6, b7, b8, b9, b10, b11, b12, b13, b14, b15]) = .ok [b0, b1, b2, b3, b4, b5, b6, b7, b8, b9, b10, b11, b12, b13, b14, b15] ∧
    parse_bytes (format_bytes true [b0, b1, b2, b3, b4, b5, b6, b7, b8, b9, b10, b11, b12, b13, b14, b15]) =
      parse_bytes (format_bytes false [b0, b1, b2, b3, b4, b5, b6, b7, b8, b9, b10, b11, b12, b13, b14, b15]) := by
  have h1 := roundtrip_format false b0 b1 b2 b3 b4 b5 b6 b7 b8 b9 b10 b11 b12 b13 b14 b15 g0 g1 g2 g3 g4 g5 g6 g7 g8 g9 g10 g11 g12 g13 g14 g15
  have h2 := roundtrip_format true b0 b1 b2 b3 b4 b5 b6 b7 b8 b9 b10 b11 b12 b13 b14 b15 g0 g1 g2 g3 g4 g5 g6 g7 g8 g9 g10 g11 g12 g13 g14 g15
  exact ⟨h1, h2, by rw [h1, h2]⟩

/-- Closed witness for C2 at the canonical bytes of the documentation
GUID. -/
theorem C2_format_parse_roundtrip_witness :
    parse_bytes (format_bytes false [107, 41, 252, 64, 202, 71, 16, 103, 179, 29, 0, 221, 1, 6, 98, 218]) = .ok [107, 41, 252, 64, 202, 71, 16, 103, 179, 29, 0, 221, 1, 6, 98, 218] ∧
    parse_bytes (format_bytes true [107, 41, 252, 64, 202, 71, 16, 103, 179, 29, 0, 221, 1, 6, 98, 218]) = .ok [107, 41, 252, 64, 202, 71, 16, 103, 179, 29, 0, 221, 1, 6, 98, 218] ∧
    parse_bytes (format_bytes true [107, 41, 252, 64, 202, 71, 16, 103, 179, 29, 0, 221, 1, 6, 98, 218]) =
      parse_bytes (format_bytes false [107, 41, 252, 64, 202, 71, 16, 103, 179, 29, 0, 221, 1, 6, 98, 218]) :=
  C2_format_parse_roundtrip 107 41 252 64 202 71 16 103 179 29 0 221 1 6 98 218
    (by decide) (by decide) (by decide) (by decide) (by decide) (by decide) (by decide) (by decide) (by decide) (by decide) (by decide) (by decide) (by decide) (by decide) (by decide) (by decide)


/-! ## Field-width strictness (C3) and separator checking (C6) -/

theorem parse_bytes_of_chunks_err {src rem : List Nat} {e : PError}
    (h : chunks src = .error (rem, e)) :
    parse_bytes src = .error { msg := errToString e } := by
  unfold parse_bytes parse_chunks parse_only
  rw [h]

theorem parse_only_of_err {α : Type} {p : P α} {src rem : List Nat} {e : PError}
    (h : p src = .error (rem, e)) : parse_only p src = .error (rem, e) := by
  unfold parse_only
  rw [h]

/-- C3 counterexample: a 37-character input whose fifth field carries one
extra hex digit (`...0662DAF`) is accepted with the extra digit silently
ignored — the runtime entry point never checks for end of input — so the
claim fails for insertions into field 5. -/
theorem C3_extra_digit_field5_accepted :
    parse_bytes [54, 66, 50, 57, 70, 67, 52, 48, 45, 67, 65, 52, 55, 45, 49, 48, 54, 55, 45, 66, 51, 49, 68, 45, 48, 48, 68, 68, 48, 49, 48, 54, 54, 50, 68, 65, 70] =
      .ok [0x6B, 0x29, 0xFC, 0x40, 0xCA, 0x47, 0x10, 0x67, 0xB3, 0x1D, 0x00, 0xDD, 0x01, 0x06, 0x62, 0xDA] := rfl

/-- C3 (amended): one extra hex digit inserted into field 1, 2, 3 or 4
makes `parse_bytes` fail (the fixed-width reader stops after its N digits,
so the following separator match fails on the extra digit); only a digit
appended to field 5 escapes detection. -/
theorem C3_extra_digit_fields_1_to_4_fail (a1 a2 a3 a4 a5 a6 a7 a8 b1 b2 b3 b4 c1 c2 c3 c4 d1 d2 d3 d4 e1 e2 e3 e4 e5 e6 e7 e8 e9 e10 e11 e12 x : Nat)
    (ha1 : is_hex a1 = true) (ha2 : is_hex a2 = true) (ha3 : is_hex a3 = true)
    (ha4 : is_hex a4 = true) (ha5 : is_hex a5 = true) (ha6 : is_hex a6 = true)
    (ha7 : is_hex a7 = true) (ha8 : is_hex a8 = true) (hb1 : is_hex b1 = true)
    (hb2 : is_hex b2 = true) (hb3 : is_hex b3 = true) (hb4 : is_hex b4 = true)
    (hc1 : is_hex c1 = true) (hc2 : is_hex c2 = true) (hc3 : is_hex c3 = true)
    (hc4 : is_hex c4 = true) (hd1 : is_hex d1 = true) (hd2 : is_hex d2 = true)
    (hd3 : is_hex d3 = true) (hd4 : is_hex d4 = true) (he1 : is_hex e1 = true)
    (he2 : is_hex e2 = true) (he3 : is_hex e3 = true) (he4 : is_hex e4 = true)
    (he5 : is_hex e5 = true) (he6 : is_hex e6 = true) (he7 : is_hex e7 = true)
    (he8 : is_hex e8 = true) (he9 : is_hex e9 = true) (he10 : is_hex e10 = true)
    (he11 : is_hex e11 = true) (he12 : is_hex e12 = true)
    (hx : is_hex x = true) :
    parse_bytes (a1 :: a2 :: a3 :: a4 :: a5 :: a6 :: a7 :: a8 :: x :: 45 :: b1 :: b2 :: b3 :: b4 :: 45 :: c1 :: c2 :: c3 :: c4 :: 45 :: d1 :: d2 :: d3 :: d4 :: 45 :: e1 :: e2 :: e3 :: e4 :: e5 :: e6 :: e7 :: e8 :: e9 :: e10 :: e11 :: e12 :: ([] : List Nat)) =
      .error { msg := "expected 45" } ∧
    parse_bytes (a1 :: a2 :: a3 :: a4 :: a5 :: a6 :: a7 :: a8 :: 45 :: b1 :: b2 :: b3 :: b4 :: x :: 45 :: c1 :: c2 :: c3 :: c4 :: 45 :: d1 :: d2 :: d3 :: d4 :: 45 :: e1 :: e2 :: e3 :: e4 :: e5 :: e6 :: e7 :: e8 :: e9 :: e10 :: e11 :: e12 :: ([] : List Nat)) =
      .error { msg := "expected 45" } ∧
    parse_bytes (a1 :: a2 :: a3 :: a4 :: a5 :: a6 :: a7 :: a8 :: 45 :: b1 :: b2 :: b3 :: b4 :: 45 :: c1 :: c2 :: c3 :: c4 :: x :: 45 :: d1 :: d2 :: d3 :: d4 :: 45 :: e1 :: e2 :: e3 :: e4 :: e5 :: e6 :: e7 :: e8 :: e9 :: e10 :: e11 :: e12 :: ([] : List Nat)) =
      .error { msg := "expected 45" } ∧
    parse_bytes (a1 :: a2 :: a3 :: a4 :: a5 :: a6 :: a7 :: a8 :: 45 :: b1 :: b2 :: b3 :: b4 :: 45 :: c1 :: c2 :: c3 :: c4 :: 45 :: d1 :: d2 :: d3 :: d4 :: x :: 45 :: e1 :: e2 :: e3 :: e4 :: e5 :: e6 :: e7 :: e8 :: e9 :: e10 :: e11 :: e12 :: ([] : List Nat)) =
      .error { msg := "expected 45" } := by
  have hx45 : x ≠ 45 := hex_ne_hyphen hx
  refine ⟨?_, ?_, ?_, ?_⟩
  · have hch : chunks (a1 :: a2 :: a3 :: a4 :: a5 :: a6 :: a7 :: a8 :: x :: 45 :: b1 :: b2 :: b3 :: b4 :: 45 :: c1 :: c2 :: c3 :: c4 :: 45 :: d1 :: d2 :: d3 :: d4 :: 45 :: e1 :: e2 :: e3 :: e4 :: e5 :: e6 :: e7 :: e8 :: e9 :: e10 :: e11 :: e12 :: ([] : List Nat)) =
        .error (x :: 45 :: b1 :: b2 :: b3 :: b4 :: 45 :: c1 :: c2 :: c3 :: c4 :: 45 :: d1 :: d2 :: d3 :: d4 :: 45 :: e1 :: e2 :: e3 :: e4 :: e5 :: e6 :: e7 :: e8 :: e9 :: e10 :: e11 :: e12 :: ([] : List Nat), .expected 45) := by
      simp only [chunks, pbind, medium_chunk_ok, short_chunk_ok,
        stringP_hyphen_ok, stringP_hyphen_err, pret, ne_eq, not_false_eq_true,
        ha1, ha2, ha3, ha4, ha5, ha6, ha7, ha8, hb1, hb2, hb3, hb4,
        hc1, hc2, hc3, hc4, hd1, hd2, hd3, hd4, he1, he2, he3, he4, he5, he6,
        he7, he8, he9, he10, he11, he12, hx45]
    exact parse_bytes_of_chunks_err hch
  · have hch : chunks (a1 :: a2 :: a3 :: a4 :: a5 :: a6 :: a7 :: a8 :: 45 :: b1 :: b2 :: b3 :: b4 :: x :: 45 :: c1 :: c2 :: c3 :: c4 :: 45 :: d1 :: d2 :: d3 :: d4 :: 45 :: e1 :: e2 :: e3 :: e4 :: e5 :: e6 :: e7 :: e8 :: e9 :: e10 :: e11 :: e12 :: ([] : List Nat)) =
        .error (x :: 45 :: c1 :: c2 :: c3 :: c4 :: 45 :: d1 :: d2 :: d3 :: d4 :: 45 :: e1 :: e2 :: e3 :: e4 :: e5 :: e6 :: e7 :: e8 :: e9 :: e10 :: e11 :: e12 :: ([] : List Nat), .expected 45) := by
      simp only [chunks, pbind, medium_chunk_ok, short_chunk_ok,
        stringP_hyphen_ok, stringP_hyphen_err, pret, ne_eq, not_false_eq_true,
        ha1, ha2, ha3, ha4, ha5, ha6, ha7, ha8, hb1, hb2, hb3, hb4,
        hc1, hc2, hc3, hc4, hd1, hd2, hd3, hd4, he1, he2, he3, he4, he5, he6,
        he7, he8, he9, he10, he11, he12, hx45]
    exact parse_bytes_of_chunks_err hch
  · have hch : chunks (a1 :: a2 :: a3 :: a4 :: a5 :: a6 :: a7 :: a8 :: 45 :: b1 :: b2 :: b3 :: b4 :: 45 :: c1 :: c2 :: c3 :: c4 :: x :: 45 :: d1 :: d2 :: d3 :: d4 :: 45 :: e1 :: e2 :: e3 :: e4 :: e5 :: e6 :: e7 :: e8 :: e9 :: e10 :: e11 :: e12 :: ([] : List Nat)) =
        .error (x :: 45 :: d1 :: d2 :: d3 :: d4 :: 45 :: e1 :: e2 :: e3 :: e4 :: e5 :: e6 :: e7 :: e8 :: e9 :: e10 :: e11 :: e12 :: ([] : List Nat), .expected 45) := by
      simp only [chunks, pbind, medium_chunk_ok, short_chunk_ok,
        stringP_hyphen_ok, stringP_hyphen_err, pret, ne_eq, not_false_eq_true,
        ha1, ha2, ha3, ha4, ha5, ha6, ha7, ha8, hb1, hb2, hb3, hb4,
        hc1, hc2, hc3, hc4, hd1, hd2, hd3, hd4, he1, he2, he3, he4, he5, he6,
        he7, he8, he9, he10, he11, he12, hx45]
    exact parse_bytes_of_chunks_err hch
  · have hch : chunks (a1 :: a2 :: a3 :: a4 :: a5 :: a6 :: a7 :: a8 :: 45 :: b1 :: b2 :: b3 :: b4 :: 45 :: c1 :: c2 :: c3 :: c4 :: 45 :: d1 :: d2 :: d3 :: d4 :: x :: 45 :: e1 :: e2 :: e3 :: e4 :: e5 :: e6 :: e7 :: e8 :: e9 :: e10 :: e11 :: e12 :: ([] : List Nat)) =
        .error (x :: 45 :: e1 :: e2 :: e3 :: e4 :: e5 :: e6 :: e7 :: e8 :: e9 :: e10 :: e11 :: e12 :: ([] : List Nat), .expected 45) := by
      simp only [chunks, pbind, medium_chunk_ok, short_chunk_ok,
        stringP_hyphen_ok, stringP_hyphen_err, pret, ne_eq, not_false_eq_true,
        ha1, ha2, ha3, ha4, ha5, ha6, ha7, ha8, hb1, hb2, hb3, hb4,
        hc1, hc2, hc3, hc4, hd1, hd2, hd3, hd4, he1, he2, he3, he4, he5, he6,
        he7, he8, he9, he10, he11, he12, hx45]
    exact parse_bytes_of_chunks_err hch

/-- Closed witness for C3 (amended): an extra `F` in each of fields 1-4 of
the documentation GUID is rejected. -/
theorem C3_extra_digit_fields_1_to_4_fail_witness :
    parse_bytes (54 :: 66 :: 50 :: 57 :: 70 :: 67 :: 52 :: 48 :: 70 :: 45 :: 67 :: 65 :: 52 :: 55 :: 45 :: 49 :: 48 :: 54 :: 55 :: 45 :: 66 :: 51 :: 49 :: 68 :: 45 :: 48 :: 48 :: 68 :: 68 :: 48 :: 49 :: 48 :: 54 :: 54 :: 50 :: 68 :: 65 :: ([] : List Nat)) =
      .error { msg := "expected 45" } ∧
    parse_bytes (54 :: 66 :: 50 :: 57 :: 70 :: 67 :: 52 :: 48 :: 45 :: 67 :: 65 :: 52 :: 55 :: 70 :: 45 :: 49 :: 48 :: 54 :: 55 :: 45 :: 66 :: 51 :: 49 :: 68 :: 45 :: 48 :: 48 :: 68 :: 68 :: 48 :: 49 :: 48 :: 54 :: 54 :: 50 :: 68 :: 65 :: ([] : List Nat)) =
      .error { msg := "expected 45" } ∧
    parse_bytes (54 :: 66 :: 50 :: 57 :: 70 :: 67 :: 52 :: 48 :: 45 :: 67 :: 65 :: 52 :: 55 :: 45 :: 49 :: 48 :: 54 :: 55 :: 70 :: 45 :: 66 :: 51 :: 49 :: 68 :: 45 :: 48 :: 48 :: 68 :: 68 :: 48 :: 49 :: 48 :: 54 :: 54 :: 50 :: 68 :: 65 :: ([] : List Nat)) =
      .error { msg := "expected 45" } ∧
    parse_bytes (54 :: 66 :: 50 :: 57 :: 70 :: 67 :: 52 :: 48 :: 45 :: 67 :: 65 :: 52 :: 55 :: 45 :: 49 :: 48 :: 54 :: 55 :: 45 :: 66 :: 51 :: 49 :: 68 :: 70 :: 45 :: 48 :: 48 :: 68 :: 68 :: 48 :: 49 :: 48 :: 54 :: 54 :: 50 :: 68 :: 65 :: ([] : List Nat)) =
      .error { msg := "expected 45" } :=
  C3_extra_digit_fields_1_to_4_fail 54 66 50 57 70 67 52 48 67 65 52 55 49 48 54 55 66 51 49 68 48 48 68 68 48 49 48 54 54 50 68 65 70
    rfl rfl rfl rfl rfl rfl rfl rfl rfl rfl rfl rfl rfl rfl rfl rfl rfl rfl rfl rfl rfl rfl rfl rfl rfl rfl rfl rfl rfl rfl rfl rfl rfl

/-- A `-` where a hex digit is required makes the field reader fail with
`unexpected` without consuming it. -/
theorem short_chunk_err_hyphen (rest : List Nat) :
    short_chunk (45 :: rest) = .error (45 :: rest, .unexpected) := rfl

/-- C6 counterexample: the claim's doubled-hyphen example
`6B29FC40--CA47-1067-B31D-00DD010662DA` does fail, but with the
`unexpected` error of the hex-digit reader at the extra hyphen, not with a
separator (`expected 45`) error as the claim states. -/
theorem C6_doubled_hyphen_not_separator_error :
    parse_only chunks [54, 66, 50, 57, 70, 67, 52, 48, 45, 45, 67, 65, 52,
      55, 45, 49, 48, 54, 55, 45, 66, 51, 49, 68, 45, 48, 48, 68, 68, 48, 49,
      48, 54, 54, 50, 68, 65] =
      .error ([45, 67, 65, 52, 55, 45, 49, 48, 54, 55, 45, 66, 51, 49, 68,
        45, 48, 48, 68, 68, 48, 49, 48, 54, 54, 50, 68, 65], .unexpected) ∧
    parse_chunks [54, 66, 50, 57, 70, 67, 52, 48, 45, 45, 67, 65, 52, 55, 45,
      49, 48, 54, 55, 45, 66, 51, 49, 68, 45, 48, 48, 68, 68, 48, 49, 48, 54,
      54, 50, 68, 65] = .error { msg := "unexpected" } ∧
    ("unexpected" : String) ≠ "expected 45" :=
  ⟨rfl, rfl, by decide⟩

/-- C6 (amended): replacing any single one of the four required hyphens by
any other byte, or deleting any single one of them, makes the parse fail
with the separator error `expected 45`, the remaining input standing
exactly at the offending position; doubling a hyphen also fails the parse,
but with the hex-digit reader's `unexpected` error at the extra hyphen
rather than a separator error. -/
theorem C6_separator_errors (a1 a2 a3 a4 a5 a6 a7 a8 b1 b2 b3 b4 c1 c2 c3 c4 d1 d2 d3 d4 e1 e2 e3 e4 e5 e6 e7 e8 e9 e10 e11 e12 s : Nat)
    (ha1 : is_hex a1 = true) (ha2 : is_hex a2 = true) (ha3 : is_hex a3 = true)
    (ha4 : is_hex a4 = true) (ha5 : is_hex a5 = true) (ha6 : is_hex a6 = true)
    (ha7 : is_hex a7 = true) (ha8 : is_hex a8 = true) (hb1 : is_hex b1 = true)
    (hb2 : is_hex b2 = true) (hb3 : is_hex b3 = true) (hb4 : is_hex b4 = true)
    (hc1 : is_hex c1 = true) (hc2 : is_hex c2 = true) (hc3 : is_hex c3 = true)
    (hc4 : is_hex c4 = true) (hd1 : is_hex d1 = true) (hd2 : is_hex d2 = true)
    (hd3 : is_hex d3 = true) (hd4 : is_hex d4 = true) (he1 : is_hex e1 = true)
    (he2 : is_hex e2 = true) (he3 : is_hex e3 = true) (he4 : is_hex e4 = true)
    (he5 : is_hex e5 = true) (he6 : is_hex e6 = true) (he7 : is_hex e7 = true)
    (he8 : is_hex e8 = true) (he9 : is_hex e9 = true) (he10 : is_hex e10 = true)
    (he11 : is_hex e11 = true) (he12 : is_hex e12 = true)
    (hs : s ≠ 45) :
    (parse_only chunks (a1 :: a2 :: a3 :: a4 :: a5 :: a6 :: a7 :: a8 :: s :: b1 :: b2 :: b3 :: b4 :: 45 :: c1 :: c2 :: c3 :: c4 :: 45 :: d1 :: d2 :: d3 :: d4 :: 45 :: e1 :: e2 :: e3 :: e4 :: e5 :: e6 :: e7 :: e8 :: e9 :: e10 :: e11 :: e12 :: ([] : List Nat)) =
        .error (s :: b1 :: b2 :: b3 :: b4 :: 45 :: c1 :: c2 :: c3 :: c4 :: 45 :: d1 :: d2 :: d3 :: d4 :: 45 :: e1 :: e2 :: e3 :: e4 :: e5 :: e6 :: e7 :: e8 :: e9 :: e10 :: e11 :: e12 :: ([] : List Nat), .expected 45) ∧
      parse_bytes (a1 :: a2 :: a3 :: a4 :: a5 :: a6 :: a7 :: a8 :: s :: b1 :: b2 :: b3 :: b4 :: 45 :: c1 :: c2 :: c3 :: c4 :: 45 :: d1 :: d2 :: d3 :: d4 :: 45 :: e1 :: e2 :: e3 :: e4 :: e5 :: e6 :: e7 :: e8 :: e9 :: e10 :: e11 :: e12 :: ([] : List Nat)) =
        .error { msg := "expected 45" }) ∧
    (parse_only chunks (a1 :: a2 :: a3 :: a4 :: a5 :: a6 :: a7 :: a8 :: 45 :: b1 :: b2 :: b3 :: b4 :: s :: c1 :: c2 :: c3 :: c4 :: 45 :: d1 :: d2 :: d3 :: d4 :: 45 :: e1 :: e2 :: e3 :: e4 :: e5 :: e6 :: e7 :: e8 :: e9 :: e10 :: e11 :: e12 :: ([] : List Nat)) =
        .error (s :: c1 :: c2 :: c3 :: c4 :: 45 :: d1 :: d2 :: d3 :: d4 :: 45 :: e1 :: e2 :: e3 :: e4 :: e5 :: e6 :: e7 :: e8 :: e9 :: e10 :: e11 :: e12 :: ([] : List Nat), .expected 45) ∧
      parse_bytes (a1 :: a2 :: a3 :: a4 :: a5 :: a6 :: a7 :: a8 :: 45 :: b1 :: b2 :: b3 :: b4 :: s :: c1 :: c2 :: c3 :: c4 :: 45 :: d1 :: d2 :: d3 :: d4 :: 45 :: e1 :: e2 :: e3 :: e4 :: e5 :: e6 :: e7 :: e8 :: e9 :: e10 :: e11 :: e12 :: ([] : List Nat)) =
        .error { msg := "expected 45" }) ∧
    (parse_only chunks (a1 :: a2 :: a3 :: a4 :: a5 :: a6 :: a7 :: a8 :: 45 :: b1 :: b2 :: b3 :: b4 :: 45 :: c1 :: c2 :: c3 :: c4 :: s :: d1 :: d2 :: d3 :: d4 :: 45 :: e1 :: e2 :: e3 :: e4 :: e5 :: e6 :: e7 :: e8 :: e9 :: e10 :: e11 :: e12 :: ([] : List Nat)) =
        .error (s :: d1 :: d2 :: d3 :: d4 :: 45 :: e1 :: e2 :: e3 :: e4 :: e5 :: e6 :: e7 :: e8 :: e9 :: e10 :: e11 :: e12 :: ([] : List Nat), .expected 45) ∧
      parse_bytes (a1 :: a2 :: a3 :: a4 :: a5 :: a6 :: a7 :: a8 :: 45 :: b1 :: b2 :: b3 :: b4 :: 45 :: c1 :: c2 :: c3 :: c4 :: s :: d1 :: d2 :: d3 :: d4 :: 45 :: e1 :: e2 :: e3 :: e4 :: e5 :: e6 :: e7 :: e8 :: e9 :: e10 :: e11 :: e12 :: ([] : List Nat)) =
        .error { msg := "expected 45" }) ∧
    (parse_only chunks (a1 :: a2 :: a3 :: a4 :: a5 :: a6 :: a7 :: a8 :: 45 :: b1 :: b2 :: b3 :: b4 :: 45 :: c1 :: c2 :: c3 :: c4 :: 45 :: d1 :: d2 :: d3 :: d4 :: s :: e1 :: e2 :: e3 :: e4 :: e5 :: e6 :: e7 :: e8 :: e9 :: e10 :: e11 :: e12 :: ([] : List Nat)) =
        .error (s :: e1 :: e2 :: e3 :: e4 :: e5 :: e6 :: e7 :: e8 :: e9 :: e10 :: e11 :: e12 :: ([] : List Nat), .expected 45) ∧
      parse_bytes (a1 :: a2 :: a3 :: a4 :: a5 :: a6 :: a7 :: a8 :: 45 :: b1 :: b2 :: b3 :: b4 :: 45 :: c1 :: c2 :: c3 :: c4 :: 45 :: d1 :: d2 :: d3 :: d4 :: s :: e1 :: e2 :: e3 :: e4 :: e5 :: e6 :: e7 :: e8 :: e9 :: e10 :: e11 :: e12 :: ([] : List Nat)) =
        .error { msg := "expected 45" }) ∧
    (parse_only chunks (a1 :: a2 :: a3 :: a4 :: a5 :: a6 :: a7 :: a8 :: b1 :: b2 :: b3 :: b4 :: 45 :: c1 :: c2 :: c3 :: c4 :: 45 :: d1 :: d2 :: d3 :: d4 :: 45 :: e1 :: e2 :: e3 :: e4 :: e5 :: e6 :: e7 :: e8 :: e9 :: e10 :: e11 :: e12 :: ([] : List Nat)) =
        .error (b1 :: b2 :: b3 :: b4 :: 45 :: c1 :: c2 :: c3 :: c4 :: 45 :: d1 :: d2 :: d3 :: d4 :: 45 :: e1 :: e2 :: e3 :: e4 :: e5 :: e6 :: e7 :: e8 :: e9 :: e10 :: e11 :: e12 :: ([] : List Nat), .expected 45) ∧
      parse_bytes (a1 :: a2 :: a3 :: a4 :: a5 :: a6 :: a7 :: a8 :: b1 :: b2 :: b3 :: b4 :: 45 :: c1 :: c2 :: c3 :: c4 :: 45 :: d1 :: d2 :: d3 :: d4 :: 45 :: e1 :: e2 :: e3 :: e4 :: e5 :: e6 :: e7 :: e8 :: e9 :: e10 :: e11 :: e12 :: ([] : List Nat)) =
        .error { msg := "expected 45" }) ∧
    (parse_only chunks (a1 :: a2 :: a3 :: a4 :: a5 :: a6 :: a7 :: a8 :: 45 :: b1 :: b2 :: b3 :: b4 :: c1 :: c2 :: c3 :: c4 :: 45 :: d1 :: d2 :: d3 :: d4 :: 45 :: e1 :: e2 :: e3 :: e4 :: e5 :: e6 :: e7 :: e8 :: e9 :: e10 :: e11 :: e12 :: ([] : List Nat)) =
        .error (c1 :: c2 :: c3 :: c4 :: 45 :: d1 :: d2 :: d3 :: d4 :: 45 :: e1 :: e2 :: e3 :: e4 :: e5 :: e6 :: e7 :: e8 :: e9 :: e10 :: e11 :: e12 :: ([] : List Nat), .expected 45) ∧
      parse_bytes (a1 :: a2 :: a3 :: a4 :: a5 :: a6 :: a7 :: a8 :: 45 :: b1 :: b2 :: b3 :: b4 :: c1 :: c2 :: c3 :: c4 :: 45 :: d1 :: d2 :: d3 :: d4 :: 45 :: e1 :: e2 :: e3 :: e4 :: e5 :: e6 :: e7 :: e8 :: e9 :: e10 :: e11 :: e12 :: ([] : List Nat)) =
        .error { msg := "expected 45" }) ∧
    (parse_only chunks (a1 :: a2 :: a3 :: a4 :: a5 :: a6 :: a7 :: a8 :: 45 :: b1 :: b2 :: b3 :: b4 :: 45 :: c1 :: c2 :: c3 :: c4 :: d1 :: d2 :: d3 :: d4 :: 45 :: e1 :: e2 :: e3 :: e4 :: e5 :: e6 :: e7 :: e8 :: e9 :: e10 :: e11 :: e12 :: ([] : List Nat)) =
        .error (d1 :: d2 :: d3 :: d4 :: 45 :: e1 :: e2 :: e3 :: e4 :: e5 :: e6 :: e7 :: e8 :: e9 :: e10 :: e11 :: e12 :: ([] : List Nat), .expected 45) ∧
      parse_bytes (a1 :: a2 :: a3 :: a4 :: a5 :: a6 :: a7 :: a8 :: 45 :: b1 :: b2 :: b3 :: b4 :: 45 :: c1 :: c2 :: c3 :: c4 :: d1 :: d2 :: d3 :: d4 :: 45 :: e1 :: e2 :: e3 :: e4 :: e5 :: e6 :: e7 :: e8 :: e9 :: e10 :: e11 :: e12 :: ([] : List Nat)) =
        .error { msg := "expected 45" }) ∧
    (parse_only chunks (a1 :: a2 :: a3 :: a4 :: a5 :: a6 :: a7 :: a8 :: 45 :: b1 :: b2 :: b3 :: b4 :: 45 :: c1 :: c2 :: c3 :: c4 :: 45 :: d1 :: d2 :: d3 :: d4 :: e1 :: e2 :: e3 :: e4 :: e5 :: e6 :: e7 :: e8 :: e9 :: e10 :: e11 :: e12 :: ([] : List Nat)) =
        .error (e1 :: e2 :: e3 :: e4 :: e5 :: e6 :: e7 :: e8 :: e9 :: e10 :: e11 :: e12 :: ([] : List Nat), .expected 45) ∧
      parse_bytes (a1 :: a2 :: a3 :: a4 :: a5 :: a6 :: a7 :: a8 :: 45 :: b1 :: b2 :: b3 :: b4 :: 45 :: c1 :: c2 :: c3 :: c4 :: 45 :: d1 :: d2 :: d3 :: d4 :: e1 :: e2 :: e3 :: e4 :: e5 :: e6 :: e7 :: e8 :: e9 :: e10 :: e11 :: e12 :: ([] : List Nat)) =
        .error { msg := "expected 45" }) ∧
    (parse_only chunks (a1 :: a2 :: a3 :: a4 :: a5 :: a6 :: a7 :: a8 :: 45 :: 45 :: b1 :: b2 :: b3 :: b4 :: 45 :: c1 :: c2 :: c3 :: c4 :: 45 :: d1 :: d2 :: d3 :: d4 :: 45 :: e1 :: e2 :: e3 :: e4 :: e5 :: e6 :: e7 :: e8 :: e9 :: e10 :: e11 :: e12 :: ([] : List Nat)) =
        .error (45 :: b1 :: b2 :: b3 :: b4 :: 45 :: c1 :: c2 :: c3 :: c4 :: 45 :: d1 :: d2 :: d3 :: d4 :: 45 :: e1 :: e2 :: e3 :: e4 :: e5 :: e6 :: e7 :: e8 :: e9 :: e10 :: e11 :: e12 :: ([] : List Nat), .unexpected) ∧
      parse_bytes (a1 :: a2 :: a3 :: a4 :: a5 :: a6 :: a7 :: a8 :: 45 :: 45 :: b1 :: b2 :: b3 :: b4 :: 45 :: c1 :: c2 :: c3 :: c4 :: 45 :: d1 :: d2 :: d3 :: d4 :: 45 :: e1 :: e2 :: e3 :: e4 :: e5 :: e6 :: e7 :: e8 :: e9 :: e10 :: e11 :: e12 :: ([] : List Nat)) =
        .error { msg := "unexpected" }) ∧
    (parse_only chunks (a1 :: a2 :: a3 :: a4 :: a5 :: a6 :: a7 :: a8 :: 45 :: b1 :: b2 :: b3 :: b4 :: 45 :: 45 :: c1 :: c2 :: c3 :: c4 :: 45 :: d1 :: d2 :: d3 :: d4 :: 45 :: e1 :: e2 :: e3 :: e4 :: e5 :: e6 :: e7 :: e8 :: e9 :: e10 :: e11 :: e12 :: ([] : List Nat)) =
        .error (45 :: c1 :: c2 :: c3 :: c4 :: 45 :: d1 :: d2 :: d3 :: d4 :: 45 :: e1 :: e2 :: e3 :: e4 :: e5 :: e6 :: e7 :: e8 :: e9 :: e10 :: e11 :: e12 :: ([] : List Nat), .unexpected) ∧
      parse_bytes (a1 :: a2 :: a3 :: a4 :: a5 :: a6 :: a7 :: a8 :: 45 :: b1 :: b2 :: b3 :: b4 :: 45 :: 45 :: c1 :: c2 :: c3 :: c4 :: 45 :: d1 :: d2 :: d3 :: d4 :: 45 :: e1 :: e2 :: e3 :: e4 :: e5 :: e6 :: e7 :: e8 :: e9 :: e10 :: e11 :: e12 :: ([] : List Nat)) =
        .error { msg := "unexpected" }) ∧
    (parse_only chunks (a1 :: a2 :: a3 :: a4 :: a5 :: a6 :: a7 :: a8 :: 45 :: b1 :: b2 :: b3 :: b4 :: 45 :: c1 :: c2 :: c3 :: c4 :: 45 :: 45 :: d1 :: d2 :: d3 :: d4 :: 45 :: e1 :: e2 :: e3 :: e4 :: e5 :: e6 :: e7 :: e8 :: e9 :: e10 :: e11 :: e12 :: ([] : List Nat)) =
        .error (45 :: d1 :: d2 :: d3 :: d4 :: 45 :: e1 :: e2 :: e3 :: e4 :: e5 :: e6 :: e7 :: e8 :: e9 :: e10 :: e11 :: e12 :: ([] : List Nat), .unexpected) ∧
      parse_bytes (a1 :: a2 :: a3 :: a4 :: a5 :: a6 :: a7 :: a8 :: 45 :: b1 :: b2 :: b3 :: b4 :: 45 :: c1 :: c2 :: c3 :: c4 :: 45 :: 45 :: d1 :: d2 :: d3 :: d4 :: 45 :: e1 :: e2 :: e3 :: e4 :: e5 :: e6 :: e7 :: e8 :: e9 :: e10 :: e11 :: e12 :: ([] : List Nat)) =
        .error { msg := "unexpected" }) ∧
    (parse_only chunks (a1 :: a2 :: a3 :: a4 :: a5 :: a6 :: a7 :: a8 :: 45 :: b1 :: b2 :: b3 :: b4 :: 45 :: c1 :: c2 :: c3 :: c4 :: 45 :: d1 :: d2 :: d3 :: d4 :: 45 :: 45 :: e1 :: e2 :: e3 :: e4 :: e5 :: e6 :: e7 :: e8 :: e9 :: e10 :: e11 :: e12 :: ([] : List Nat)) =
        .error (45 :: e1 :: e2 :: e3 :: e4 :: e5 :: e6 :: e7 :: e8 :: e9 :: e10 :: e11 :: e12 :: ([] : List Nat), .unexpected) ∧
      parse_bytes (a1 :: a2 :: a3 :: a4 :: a5 :: a6 :: a7 :: a8 :: 45 :: b1 :: b2 :: b3 :: b4 :: 45 :: c1 :: c2 :: c3 :: c4 :: 45 :: d1 :: d2 :: d3 :: d4 :: 45 :: 45 :: e1 :: e2 :: e3 :: e4 :: e5 :: e6 :: e7 :: e8 :: e9 :: e10 :: e11 :: e12 :: ([] : List Nat)) =
        .error { msg := "unexpected" }) := by
  have hb45 : b1 ≠ 45 := hex_ne_hyphen hb1
  have hc45 : c1 ≠ 45 := hex_ne_hyphen hc1
  have hd45 : d1 ≠ 45 := hex_ne_hyphen hd1
  have he45 : e1 ≠ 45 := hex_ne_hyphen he1
  refine ⟨?_, ?_, ?_, ?_, ?_, ?_, ?_, ?_, ?_, ?_, ?_, ?_⟩
  · have hch : chunks (a1 :: a2 :: a3 :: a4 :: a5 :: a6 :: a7 :: a8 :: s :: b1 :: b2 :: b3 :: b4 :: 45 :: c1 :: c2 :: c3 :: c4 :: 45 :: d1 :: d2 :: d3 :: d4 :: 45 :: e1 :: e2 :: e3 :: e4 :: e5 :: e6 :: e7 :: e8 :: e9 :: e10 :: e11 :: e12 :: ([] : List Nat)) =
        .error (s :: b1 :: b2 :: b3 :: b4 :: 45 :: c1 :: c2 :: c3 :: c4 :: 45 :: d1 :: d2 :: d3 :: d4 :: 45 :: e1 :: e2 :: e3 :: e4 :: e5 :: e6 :: e7 :: e8 :: e9 :: e10 :: e11 :: e12 :: ([] : List Nat), .expected 45) := by
      simp only [chunks, pbind, medium_chunk_ok, short_chunk_ok,
        stringP_hyphen_ok, stringP_hyphen_err, short_chunk_err_hyphen, pret,
        ne_eq, not_false_eq_true,
        ha1, ha2, ha3, ha4, ha5, ha6, ha7, ha8, hb1, hb2, hb3, hb4,
        hc1, hc2, hc3, hc4, hd1, hd2, hd3, hd4, he1, he2, he3, he4, he5, he6,
        he7, he8, he9, he10, he11, he12, hs, hb45, hc45, hd45, he45]
    exact ⟨parse_only_of_err hch, parse_bytes_of_chunks_err hch⟩
  · have hch : chunks (a1 :: a2 :: a3 :: a4 :: a5 :: a6 :: a7 :: a8 :: 45 :: b1 :: b2 :: b3 :: b4 :: s :: c1 :: c2 :: c3 :: c4 :: 45 :: d1 :: d2 :: d3 :: d4 :: 45 :: e1 :: e2 :: e3 :: e4 :: e5 :: e6 :: e7 :: e8 :: e9 :: e10 :: e11 :: e12 :: ([] : List Nat)) =
        .error (s :: c1 :: c2 :: c3 :: c4 :: 45 :: d1 :: d2 :: d3 :: d4 :: 45 :: e1 :: e2 :: e3 :: e4 :: e5 :: e6 :: e7 :: e8 :: e9 :: e10 :: e11 :: e12 :: ([] : List Nat), .expected 45) := by
      simp only [chunks, pbind, medium_chunk_ok, short_chunk_ok,
        stringP_hyphen_ok, stringP_hyphen_err, short_chunk_err_hyphen, pret,
        ne_eq, not_false_eq_true,
        ha1, ha2, ha3, ha4, ha5, ha6, ha7, ha8, hb1, hb2, hb3, hb4,
        hc1, hc2, hc3, hc4, hd1, hd2, hd3, hd4, he1, he2, he3, he4, he5, he6,
        he7, he8, he9, he10, he11, he12, hs, hb45, hc45, hd45, he45]
    exact ⟨parse_only_of_err hch, parse_bytes_of_chunks_err hch⟩
  · have hch : chunks (a1 :: a2 :: a3 :: a4 :: a5 :: a6 :: a7 :: a8 :: 45 :: b1 :: b2 :: b3 :: b4 :: 45 :: c1 :: c2 :: c3 :: c4 :: s :: d1 :: d2 :: d3 :: d4 :: 45 :: e1 :: e2 :: e3 :: e4 :: e5 :: e6 :: e7 :: e8 :: e9 :: e10 :: e11 :: e12 :: ([] : List Nat)) =
        .error (s :: d1 :: d2 :: d3 :: d4 :: 45 :: e1 :: e2 :: e3 :: e4 :: e5 :: e6 :: e7 :: e8 :: e9 :: e10 :: e11 :: e12 :: ([] : List Nat), .expected 45) := by
      simp only [chunks, pbind, medium_chunk_ok, short_chunk_ok,
        stringP_hyphen_ok, stringP_hyphen_err, short_chunk_err_hyphen, pret,
        ne_eq, not_false_eq_true,
        ha1, ha2, ha3, ha4, ha5, ha6, ha7, ha8, hb1, hb2, hb3, hb4,
        hc1, hc2, hc3, hc4, hd1, hd2, hd3, hd4, he1, he2, he3, he4, he5, he6,
        he7, he8, he9, he10, he11, he12, hs, hb45, hc45, hd45, he45]
    exact ⟨parse_only_of_err hch, parse_bytes_of_chunks_err hch⟩
  · have hch : chunks (a1 :: a2 :: a3 :: a4 :: a5 :: a6 :: a7 :: a8 :: 45 :: b1 :: b2 :: b3 :: b4 :: 45 :: c1 :: c2 :: c3 :: c4 :: 45 :: d1 :: d2 :: d3 :: d4 :: s :: e1 :: e2 :: e3 :: e4 :: e5 :: e6 :: e7 :: e8 :: e9 :: e10 :: e11 :: e12 :: ([] : List Nat)) =
        .error (s :: e1 :: e2 :: e3 :: e4 :: e5 :: e6 :: e7 :: e8 :: e9 :: e10 :: e11 :: e12 :: ([] : List Nat), .expected 45) := by
      simp only [chunks, pbind, medium_chunk_ok, short_chunk_ok,
        stringP_hyphen_ok, stringP_hyphen_err, short_chunk_err_hyphen, pret,
        ne_eq, not_false_eq_true,
        ha1, ha2, ha3, ha4, ha5, ha6, ha7, ha8, hb1, hb2, hb3, hb4,
        hc1, hc2, hc3, hc4, hd1, hd2, hd3, hd4, he1, he2, he3, he4, he5, he6,
        he7, he8, he9, he10, he11, he12, hs, hb45, hc45, hd45, he45]
    exact ⟨parse_only_of_err hch, parse_bytes_of_chunks_err hch⟩
  · have hch : chunks (a1 :: a2 :: a3 :: a4 :: a5 :: a6 :: a7 :: a8 :: b1 :: b2 :: b3 :: b4 :: 45 :: c1 :: c2 :: c3 :: c4 :: 45 :: d1 :: d2 :: d3 :: d4 :: 45 :: e1 :: e2 :: e3 :: e4 :: e5 :: e6 :: e7 :: e8 :: e9 :: e10 :: e11 :: e12 :: ([] : List Nat)) =
        .error (b1 :: b2 :: b3 :: b4 :: 45 :: c1 :: c2 :: c3 :: c4 :: 45 :: d1 :: d2 :: d3 :: d4 :: 45 :: e1 :: e2 :: e3 :: e4 :: e5 :: e6 :: e7 :: e8 :: e9 :: e10 :: e11 :: e12 :: ([] : List Nat), .expected 45) := by
      simp only [chunks, pbind, medium_chunk_ok, short_chunk_ok,
        stringP_hyphen_ok, stringP_hyphen_err, short_chunk_err_hyphen, pret,
        ne_eq, not_false_eq_true,
        ha1, ha2, ha3, ha4, ha5, ha6, ha7, ha8, hb1, hb2, hb3, hb4,
        hc1, hc2, hc3, hc4, hd1, hd2, hd3, hd4, he1, he2, he3, he4, he5, he6,
        he7, he8, he9, he10, he11, he12, hs, hb45, hc45, hd45, he45]
    exact ⟨parse_only_of_err hch, parse_bytes_of_chunks_err hch⟩
  · have hch : chunks (a1 :: a2 :: a3 :: a4 :: a5 :: a6 :: a7 :: a8 :: 45 :: b1 :: b2 :: b3 :: b4 :: c1 :: c2 :: c3 :: c4 :: 45 :: d1 :: d2 :: d3 :: d4 :: 45 :: e1 :: e2 :: e3 :: e4 :: e5 :: e6 :: e7 :: e8 :: e9 :: e10 :: e11 :: e12 :: ([] : List Nat)) =
        .error (c1 :: c2 :: c3 :: c4 :: 45 :: d1 :: d2 :: d3 :: d4 :: 45 :: e1 :: e2 :: e3 :: e4 :: e5 :: e6 :: e7 :: e8 :: e9 :: e10 :: e11 :: e12 :: ([] : List Nat), .expected 45) := by
      simp only [chunks, pbind, medium_chunk_ok, short_chunk_ok,
        stringP_hyphen_ok, stringP_hyphen_err, short_chunk_err_hyphen, pret,
        ne_eq, not_false_eq_true,
        ha1, ha2, ha3, ha4, ha5, ha6, ha7, ha8, hb1, hb2, hb3, hb4,
        hc1, hc2, hc3, hc4, hd1, hd2, hd3, hd4, he1, he2, he3, he4, he5, he6,
        he7, he8, he9, he10, he11, he12, hs, hb45, hc45, hd45, he45]
    exact ⟨parse_only_of_err hch, parse_bytes_of_chunks_err hch⟩
  · have hch : chunks (a1 :: a2 :: a3 :: a4 :: a5 :: a6 :: a7 :: a8 :: 45 :: b1 :: b2 :: b3 :: b4 :: 45 :: c1 :: c2 :: c3 :: c4 :: d1 :: d2 :: d3 :: d4 :: 45 :: e1 :: e2 :: e3 :: e4 :: e5 :: e6 :: e7 :: e8 :: e9 :: e10 :: e11 :: e12 :: ([] : List Nat)) =
        .error (d1 :: d2 :: d3 :: d4 :: 45 :: e1 :: e2 :: e3 :: e4 :: e5 :: e6 :: e7 :: e8 :: e9 :: e10 :: e11 :: e12 :: ([] : List Nat), .expected 45) := by
      simp only [chunks, pbind, medium_chunk_ok, short_chunk_ok,
        stringP_hyphen_ok, stringP_hyphen_err, short_chunk_err_hyphen, pret,
        ne_eq, not_false_eq_true,
        ha1, ha2, ha3, ha4, ha5, ha6, ha7, ha8, hb1, hb2, hb3, hb4,
        hc1, hc2, hc3, hc4, hd1, hd2, hd3, hd4, he1, he2, he3, he4, he5, he6,
        he7, he8, he9, he10, he11, he12, hs, hb45, hc45, hd45, he45]
    exact ⟨parse_only_of_err hch, parse_bytes_of_chunks_err hch⟩
  · have hch : chunks (a1 :: a2 :: a3 :: a4 :: a5 :: a6 :: a7 :: a8 :: 45 :: b1 :: b2 :: b3 :: b4 :: 45 :: c1 :: c2 :: c3 :: c4 :: 45 :: d1 :: d2 :: d3 :: d4 :: e1 :: e2 :: e3 :: e4 :: e5 :: e6 :: e7 :: e8 :: e9 :: e10 :: e11 :: e12 :: ([] : List Nat)) =
        .error (e1 :: e2 :: e3 :: e4 :: e5 :: e6 :: e7 :: e8 :: e9 :: e10 :: e11 :: e12 :: ([] : List Nat), .expected 45) := by
      simp only [chunks, pbind, medium_chunk_ok, short_chunk_ok,
        stringP_hyphen_ok, stringP_hyphen_err, short_chunk_err_hyphen, pret,
        ne_eq, not_false_eq_true,
        ha1, ha2, ha3, ha4, ha5, ha6, ha7, ha8, hb1, hb2, hb3, hb4,
        hc1, hc2, hc3, hc4, hd1, hd2, hd3, hd4, he1, he2, he3, he4, he5, he6,
        he7, he8, he9, he10, he11, he12, hs, hb45, hc45, hd45, he45]
    exact ⟨parse_only_of_err hch, parse_bytes_of_chunks_err hch⟩
  · have hch : chunks (a1 :: a2 :: a3 :: a4 :: a5 :: a6 :: a7 :: a8 :: 45 :: 45 :: b1 :: b2 :: b3 :: b4 :: 45 :: c1 :: c2 :: c3 :: c4 :: 45 :: d1 :: d2 :: d3 :: d4 :: 45 :: e1 :: e2 :: e3 :: e4 :: e5 :: e6 :: e7 :: e8 :: e9 :: e10 :: e11 :: e12 :: ([] : List Nat)) =
        .error (45 :: b1 :: b2 :: b3 :: b4 :: 45 :: c1 :: c2 :: c3 :: c4 :: 45 :: d1 :: d2 :: d3 :: d4 :: 45 :: e1 :: e2 :: e3 :: e4 :: e5 :: e6 :: e7 :: e8 :: e9 :: e10 :: e11 :: e12 :: ([] : List Nat), .unexpected) := by
      simp only [chunks, pbind, medium_chunk_ok, short_chunk_ok,
        stringP_hyphen_ok, stringP_hyphen_err, short_chunk_err_hyphen, pret,
        ne_eq, not_false_eq_true,
        ha1, ha2, ha3, ha4, ha5, ha6, ha7, ha8, hb1, hb2, hb3, hb4,
        hc1, hc2, hc3, hc4, hd1, hd2, hd3, hd4, he1, he2, he3, he4, he5, he6,
        he7, he8, he9, he10, he11, he12, hs, hb45, hc45, hd45, he45]
    exact ⟨parse_only_of_err hch, parse_bytes_of_chunks_err hch⟩
  · have hch : chunks (a1 :: a2 :: a3 :: a4 :: a5 :: a6 :: a7 :: a8 :: 45 :: b1 :: b2 :: b3 :: b4 :: 45 :: 45 :: c1 :: c2 :: c3 :: c4 :: 45 :: d1 :: d2 :: d3 :: d4 :: 45 :: e1 :: e2 :: e3 :: e4 :: e5 :: e6 :: e7 :: e8 :: e9 :: e10 :: e11 :: e12 :: ([] : List Nat)) =
        .error (45 :: c1 :: c2 :: c3 :: c4 :: 45 :: d1 :: d2 :: d3 :: d4 :: 45 :: e1 :: e2 :: e3 :: e4 :: e5 :: e6 :: e7 :: e8 :: e9 :: e10 :: e11 :: e12 :: ([] : List Nat), .unexpected) := by
      simp only [chunks, pbind, medium_chunk_ok, short_chunk_ok,
        stringP_hyphen_ok, stringP_hyphen_err, short_chunk_err_hyphen, pret,
        ne_eq, not_false_eq_true,
        ha1, ha2, ha3, ha4, ha5, ha6, ha7, ha8, hb1, hb2, hb3, hb4,
        hc1, hc2, hc3, hc4, hd1, hd2, hd3, hd4, he1, he2, he3, he4, he5, he6,
        he7, he8, he9, he10, he11, he12, hs, hb45, hc45, hd45, he45]
    exact ⟨parse_only_of_err hch, parse_bytes_of_chunks_err hch⟩
  · have hch : chunks (a1 :: a2 :: a3 :: a4 :: a5 :: a6 :: a7 :: a8 :: 45 :: b1 :: b2 :: b3 :: b4 :: 45 :: c1 :: c2 :: c3 :: c4 :: 45 :: 45 :: d1 :: d2 :: d3 :: d4 :: 45 :: e1 :: e2 :: e3 :: e4 :: e5 :: e6 :: e7 :: e8 :: e9 :: e10 :: e11 :: e12 :: ([] : List Nat)) =
        .error (45 :: d1 :: d2 :: d3 :: d4 :: 45 :: e1 :: e2 :: e3 :: e4 :: e5 :: e6 :: e7 :: e8 :: e9 :: e10 :: e11 :: e12 :: ([] : List Nat), .unexpected) := by
      simp only [chunks, pbind, medium_chunk_ok, short_chunk_ok,
        stringP_hyphen_ok, stringP_hyphen_err, short_chunk_err_hyphen, pret,
        ne_eq, not_false_eq_true,
        ha1, ha2, ha3, ha4, ha5, ha6, ha7, ha8, hb1, hb2, hb3, hb4,
        hc1, hc2, hc3, hc4, hd1, hd2, hd3, hd4, he1, he2, he3, he4, he5, he6,
        he7, he8, he9, he10, he11, he12, hs, hb45, hc45, hd45, he45]
    exact ⟨parse_only_of_err hch, parse_bytes_of_chunks_err hch⟩
  · have hch : chunks (a1 :: a2 :: a3 :: a4 :: a5 :: a6 :: a7 :: a8 :: 45 :: b1 :: b2 :: b3 :: b4 :: 45 :: c1 :: c2 :: c3 :: c4 :: 45 :: d1 :: d2 :: d3 :: d4 :: 45 :: 45 :: e1 :: e2 :: e3 :: e4 :: e5 :: e6 :: e7 :: e8 :: e9 :: e10 :: e11 :: e12 :: ([] : List Nat)) =
        .error (45 :: e1 :: e2 :: e3 :: e4 :: e5 :: e6 :: e7 :: e8 :: e9 :: e10 :: e11 :: e12 :: ([] : List Nat), .unexpected) := by
      simp only [chunks, long_chunk, pbind, medium_chunk_ok, short_chunk_ok,
        stringP_hyphen_ok, stringP_hyphen_err, short_chunk_err_hyphen, pret,
        ne_eq, not_false_eq_true,
        ha1, ha2, ha3, ha4, ha5, ha6, ha7, ha8, hb1, hb2, hb3, hb4,
        hc1, hc2, hc3, hc4, hd1, hd2, hd3, hd4, he1, he2, he3, he4, he5, he6,
        he7, he8, he9, he10, he11, he12, hs, hb45, hc45, hd45, he45]
    exact ⟨parse_only_of_err hch, parse_bytes_of_chunks_err hch⟩

/-- Closed witness for C6 (amended): a `:` in place of the first hyphen and
a deleted first hyphen (the spec's `6B29FC40CA47-…` example) both fail with
the separator error, and a doubled first hyphen fails with `unexpected`. -/
theorem C6_separator_errors_witness :
    parse_bytes (54 :: 66 :: 50 :: 57 :: 70 :: 67 :: 52 :: 48 :: 58 :: 67 :: 65 :: 52 :: 55 :: 45 :: 49 :: 48 :: 54 :: 55 :: 45 :: 66 :: 51 :: 49 :: 68 :: 45 :: 48 :: 48 :: 68 :: 68 :: 48 :: 49 :: 48 :: 54 :: 54 :: 50 :: 68 :: 65 :: ([] : List Nat)) =
      .error { msg := "expected 45" } ∧
    parse_bytes (54 :: 66 :: 50 :: 57 :: 70 :: 67 :: 52 :: 48 :: 67 :: 65 :: 52 :: 55 :: 45 :: 49 :: 48 :: 54 :: 55 :: 45 :: 66 :: 51 :: 49 :: 68 :: 45 :: 48 :: 48 :: 68 :: 68 :: 48 :: 49 :: 48 :: 54 :: 54 :: 50 :: 68 :: 65 :: ([] : List Nat)) =
      .error { msg := "expected 45" } ∧
    parse_bytes (54 :: 66 :: 50 :: 57 :: 70 :: 67 :: 52 :: 48 :: 45 :: 45 :: 67 :: 65 :: 52 :: 55 :: 45 :: 49 :: 48 :: 54 :: 55 :: 45 :: 66 :: 51 :: 49 :: 68 :: 45 :: 48 :: 48 :: 68 :: 68 :: 48 :: 49 :: 48 :: 54 :: 54 :: 50 :: 68 :: 65 :: ([] : List Nat)) =
      .error { msg := "unexpected" } := by
  have H := C6_separator_errors 54 66 50 57 70 67 52 48 67 65 52 55 49 48 54 55 66 51 49 68 48 48 68 68 48 49 48 54 54 50 68 65 58
    rfl rfl rfl rfl rfl rfl rfl rfl rfl rfl rfl rfl rfl rfl rfl rfl rfl rfl rfl rfl rfl rfl rfl rfl rfl rfl rfl rfl rfl rfl rfl rfl (by decide)
  exact ⟨H.1.2, H.2.2.2.2.1.2, H.2.2.2.2.2.2.2.2.1.2⟩

/-! ## Error folding at the runtime boundary (C8) -/

/-- C8 counterexample: two inputs that fail at different byte offsets
(offset 0: `G` in place of the first digit; offset 1: `G` as second digit)
produce the very same `ParseGuidError`.  The offset is visible in the
remaining-input component of the underlying parser failure, but the
`|(_, e)| ...` closure of `parse_chunks` discards it, so the returned error
carries no position. -/
theorem C8_position_discarded :
    parse_only chunks [71, 66, 50, 57, 70, 67, 52, 48, 45, 67, 65, 52, 55, 45, 49, 48, 54, 55, 45, 66, 51, 49, 68, 45, 48, 48, 68, 68, 48, 49, 48, 54, 54, 50, 68, 65] =
      .error ([71, 66, 50, 57, 70, 67, 52, 48, 45, 67, 65, 52, 55, 45, 49, 48, 54, 55, 45, 66, 51, 49, 68, 45, 48, 48, 68, 68, 48, 49, 48, 54, 54, 50, 68, 65], .unexpected) ∧
    parse_only chunks [54, 71, 50, 57, 70, 67, 52, 48, 45, 67, 65, 52, 55, 45, 49, 48, 54, 55, 45, 66, 51, 49, 68, 45, 48, 48, 68, 68, 48, 49, 48, 54, 54, 50, 68, 65] =
      .error ([71, 50, 57, 70, 67, 52, 48, 45, 67, 65, 52, 55, 45, 49, 48, 54, 55, 45, 66, 51, 49, 68, 45, 48, 48, 68, 68, 48, 49, 48, 54, 54, 50, 68, 65], .unexpected) ∧
    parse_chunks [71, 66, 50, 57, 70, 67, 52, 48, 45, 67, 65, 52, 55, 45, 49, 48, 54, 55, 45, 66, 51, 49, 68, 45, 48, 48, 68, 68, 48, 49, 48, 54, 54, 50, 68, 65] = parse_chunks [54, 71, 50, 57, 70, 67, 52, 48, 45, 67, 65, 52, 55, 45, 49, 48, 54, 55, 45, 66, 51, 49, 68, 45, 48, 48, 68, 68, 48, 49, 48, 54, 54, 50, 68, 65] ∧
    parse_chunks [71, 66, 50, 57, 70, 67, 52, 48, 45, 67, 65, 52, 55, 45, 49, 48, 54, 55, 45, 66, 51, 49, 68, 45, 48, 48, 68, 68, 48, 49, 48, 54, 54, 50, 68, 65] = .error { msg := "unexpected" } :=
  ⟨rfl, rfl, rfl, rfl⟩

/-- C8 (amended): the first field or separator error encountered is the one
propagated, and no parse failure is silently swallowed: whenever the parser
fails, `parse_chunks` returns a `ParseGuidError` whose message is the
expected-vs-found rendering of that first error — but the byte offset is
discarded, not carried, by the runtime boundary. -/
theorem C8_first_error_folded (src : List Nat) :
    (∃ c, parse_only chunks src = .ok c ∧ parse_chunks src = .ok c) ∨
    (∃ rem e, parse_only chunks src = .error (rem, e) ∧
      parse_chunks src = .error { msg := errToString e }) := by
  cases h : parse_only chunks src with
  | ok c => exact .inl ⟨c, rfl, by simp [parse_chunks, h]⟩
  | error pe =>
    obtain ⟨rem, e⟩ := pe
    exact .inr ⟨rem, e, rfl, by simp [parse_chunks, h]⟩

/-- Closed witness for C8 (amended) at a failing input. -/
theorem C8_first_error_folded_witness :
    (∃ c, parse_only chunks [71, 66, 50, 57, 70, 67, 52, 48, 45, 67, 65, 52, 55, 45, 49, 48, 54, 55, 45, 66, 51, 49, 68, 45, 48, 48, 68, 68, 48, 49, 48, 54, 54, 50, 68, 65] = .ok c ∧
      parse_chunks [71, 66, 50, 57, 70, 67, 52, 48, 45, 67, 65, 52, 55, 45, 49, 48, 54, 55, 45, 66, 51, 49, 68, 45, 48, 48, 68, 68, 48, 49, 48, 54, 54, 50, 68, 65] = .ok c) ∨
    (∃ rem e, parse_only chunks [71, 66, 50, 57, 70, 67, 52, 48, 45, 67, 65, 52, 55, 45, 49, 48, 54, 55, 45, 66, 51, 49, 68, 45, 48, 48, 68, 68, 48, 49, 48, 54, 54, 50, 68, 65] = .error (rem, e) ∧
      parse_chunks [71, 66, 50, 57, 70, 67, 52, 48, 45, 67, 65, 52, 55, 45, 49, 48, 54, 55, 45, 66, 51, 49, 68, 45, 48, 48, 68, 68, 48, 49, 48, 54, 54, 50, 68, 65] = .error { msg := errToString e }) :=
  C8_first_error_folded [71, 66, 50, 57, 70, 67, 52, 48, 45, 67, 65, 52, 55, 45, 49, 48, 54, 55, 45, 66, 51, 49, 68, 45, 48, 48, 68, 68, 48, 49, 48, 54, 54, 50, 68, 65]

end GuidSpec
